import Mathlib

/-!
Verification of the appshare-backend release/artifact ingestion pipeline.

This file gives a shallow embedding, in Lean 4, of the parts of the
appshare-backend Go repository that the verified properties speak about:

* the domain error taxonomy and Go error matching
  (internal/domain/errors.go);
* the SQL data model and queries
  (migrations/004, internal/db/queries/&#42;.sql);
* the postgres repository layer with its error translation
  (internal/repository/postgres);
* the transaction manager (internal/db, WithTx / WithTxOptions /
  WithSerializableTx);
* SHA-256 streaming hashing as performed by the pipeline via
  crypto/sha256 + io.Copy + io.MultiWriter;
* the services: ReleaseService (Create, Update, Promote, Delete,
  CreateReleaseWithArtifactURL), APKService.ExtractMetadataFromURL,
  ApplicationService.CreateFromArtifact, ProjectService.TransferOwnership.

External collaborators that the Go code consumes (object storage download,
net/url parsing, the third-party APK parser) are passed in as explicit
function parameters, mirroring the interfaces the services program against.
UUIDs are modelled as natural numbers, timestamps as naturals.
-/

namespace AppShare

/-! ## Error model (internal/domain/errors.go) -/

/-- Machine-readable error codes, one per `ErrorCode` constant in
internal/domain/errors.go. -/
inductive ErrorCode where
  | internal
  | notFound
  | alreadyExists
  | invalidInput
  | validation
  | unauthorized
  | invalidCredentials
  | tokenExpired
  | tokenInvalid
  | forbidden
  | insufficientRole
  | emailExists
  | usernameExists
  | phoneExists
  | userInactive
  | projectNotFound
  | notProjectOwner
  | applicationNotFound
  | packageNameExists
  | releaseNotFound
  | releaseExists
  | invalidVersionCode
deriving DecidableEq, Repr

/-- Go error values reachable in the modelled code paths.

* `appError code msg` is `domain.AppError{Code, Message}` with nil `Err`;
* `wrapError code msg inner` is the same with non-nil `Err`
  (built by `domain.WrapError`);
* `validationError field msg` is `domain.ValidationError`;
* `pgNoRows` is the `pgx.ErrNoRows` sentinel;
* `pgUnique c` is a raw driver unique-constraint violation
  (SQLSTATE 23505) on constraint `c`;
* `wrapf msg inner` is `fmt.Errorf(msg ++ ": %w", inner)`;
* `plainErr msg` is any error value with no unwrap target. -/
inductive GoErr where
  | appError (code : ErrorCode) (msg : String)
  | wrapError (code : ErrorCode) (msg : String) (inner : GoErr)
  | validationError (field : String) (msg : String)
  | pgNoRows
  | pgUnique (constraint : String)
  | wrapf (msg : String) (inner : GoErr)
  | plainErr (msg : String)
deriving DecidableEq, Repr

/-- The `AppError` code at the top of an error value, when the value is an
`AppError`. -/
def appCode? : GoErr → Option ErrorCode
  | .appError c _ => some c
  | .wrapError c _ _ => some c
  | _ => none

/-- Sentinel `domain.ErrNotFound`. -/
def ErrNotFound : GoErr := .appError .notFound "resource not found"

/-- Sentinel `domain.ErrAlreadyExists`. -/
def ErrAlreadyExists : GoErr := .appError .alreadyExists "resource already exists"

/-- Sentinel `domain.ErrInvalidInput`. -/
def ErrInvalidInput : GoErr := .appError .invalidInput "invalid input"

/-- Sentinel `domain.ErrInternal`. -/
def ErrInternal : GoErr := .appError .internal "internal server error"

/-- Sentinel `domain.ErrProjectNotFound`. -/
def ErrProjectNotFound : GoErr := .appError .projectNotFound "project not found"

/-- Sentinel `domain.ErrNotProjectOwner`. -/
def ErrNotProjectOwner : GoErr := .appError .notProjectOwner "you are not the project owner"

/-- Sentinel `domain.ErrApplicationNotFound`. -/
def ErrApplicationNotFound : GoErr := .appError .applicationNotFound "application not found"

/-- Sentinel `domain.ErrPackageNameExists`. -/
def ErrPackageNameExists : GoErr := .appError .packageNameExists "package name already exists"

/-- Sentinel `domain.ErrReleaseNotFound`. -/
def ErrReleaseNotFound : GoErr := .appError .releaseNotFound "release not found"

/-- Sentinel `domain.ErrReleaseExists`. -/
def ErrReleaseExists : GoErr := .appError .releaseExists "release already exists"

/-- One level of `errors.Is` matching: `AppError.Is` compares by code
(errors.go lines 66-73); every other error compares by identity, which the
embedding renders as structural equality of the modelled values. -/
def goIsTop (e target : GoErr) : Bool :=
  match appCode? e, appCode? target with
  | some c, some c2 => c == c2
  | _, _ => e == target

/-- `errors.Is(e, target)`: match at each step of the unwrap chain.
`AppError.Unwrap` returns the wrapped error; `ValidationError.Unwrap`
returns `ErrInvalidInput` (errors.go line 137); `fmt.Errorf` with `%w`
unwraps to the wrapped error. -/
def goIs : GoErr → GoErr → Bool
  | .wrapError c m w, target => goIsTop (.wrapError c m w) target || goIs w target
  | .validationError f m, target =>
    goIsTop (.validationError f m) target || goIsTop ErrInvalidInput target
  | .wrapf m inner, target => goIsTop (.wrapf m inner) target || goIs inner target
  | e, target => goIsTop e target

/-- The rendered `Error()` text of a modelled error. `AppError.Error`
appends the wrapped error after ": "; `ValidationError.Error` is
"field: message". (For the transaction manager's rollback-failure path the
closing parenthesis of the Go format string is folded into the prefix.) -/
def errText : GoErr → String
  | .wrapError _ m w => m ++ ": " ++ errText w
  | .appError _ m => m
  | .validationError f m => f ++ ": " ++ m
  | .pgNoRows => "no rows in result set"
  | .pgUnique c => "ERROR: duplicate key value violates unique constraint " ++ c ++ " (SQLSTATE 23505)"
  | .wrapf m inner => m ++ ": " ++ errText inner
  | .plainErr m => m

/-- `errors.As(err, &appErr)`: the first `*AppError` in the unwrap chain.
A bare `ValidationError` unwraps to `ErrInvalidInput`, which is an
`AppError` with code `invalidInput`. -/
def findAppErrorCode : GoErr → Option ErrorCode
  | .appError c _ => some c
  | .wrapError c _ _ => some c
  | .validationError _ _ => some .invalidInput
  | .wrapf _ inner => findAppErrorCode inner
  | _ => none

/-- `errors.As(err, &valErr)`: the first `*ValidationError` in the unwrap
chain. -/
def findValidationErrorCode : GoErr → Option ErrorCode
  | .validationError _ _ => some .validation
  | .wrapError _ _ w => findValidationErrorCode w
  | .wrapf _ inner => findValidationErrorCode inner
  | _ => none

/-- `domain.GetErrorCode`: the code of the first `AppError` in the chain,
else of the first `ValidationError`, else `CodeInternal`
(errors.go lines 151-163). -/
def GetErrorCode (e : GoErr) : ErrorCode :=
  match findAppErrorCode e with
  | some c => c
  | none =>
    match findValidationErrorCode e with
    | some c => c
    | none => .internal

/-- `domain.NewValidationError(field, message)`. -/
def NewValidationError (field msg : String) : GoErr := .validationError field msg

/-- `domain.WrapError(code, message, err)`. -/
def WrapError (code : ErrorCode) (msg : String) (err : GoErr) : GoErr :=
  .wrapError code msg err

/-- `postgres.translateError` (internal/repository/postgres/helpers.go
lines 14-29): `pgx.ErrNoRows` becomes `domain.ErrNotFound`; every other
database error is logged and returned unchanged. -/
def translateError (e : GoErr) : GoErr :=
  if goIs e .pgNoRows then ErrNotFound else e

/-- `stringToPgtype` (helpers.go): the empty string becomes SQL NULL. -/
def stringToPgtype (s : String) : Option String :=
  if s = "" then none else some s

/-- `pgtypeToString` (helpers.go): SQL NULL reads back as "". -/
def pgtypeToString : Option String → String
  | none => ""
  | some s => s

/-- `derefString` (postgres artifact repository): nil pointer reads as "". -/
def derefString : Option String → String
  | none => ""
  | some s => s

/-! ## Data model (migrations/004_create_applications_and_artifacts.sql,
migrations/002_create_projects.sql, migrations/001_create_users.sql) -/

/-- Release environments (`release_environment` enum). -/
inductive Environment where
  | development
  | staging
  | production
deriving DecidableEq, Repr

/-- A row of `users` (only the columns the modelled paths read). -/
structure UserRow where
  id : Nat
  deletedAt : Option Nat
deriving DecidableEq, Repr

/-- A row of `projects`. -/
structure ProjectRow where
  id : Nat
  title : String
  description : String
  ownerId : Nat
  createdAt : Nat
  updatedAt : Nat
  deletedAt : Option Nat
deriving DecidableEq, Repr

/-- A row of `applications`. `package_name` carries a global UNIQUE
constraint. -/
structure ApplicationRow where
  id : Nat
  title : String
  packageName : String
  description : Option String
  projectId : Nat
  createdAt : Nat
  updatedAt : Nat
  deletedAt : Option Nat
deriving DecidableEq, Repr

/-- A row of `application_releases`. The table carries
`CONSTRAINT unique_application_release UNIQUE (application_id,
version_code, environment)`. -/
structure ReleaseRow where
  id : Nat
  title : String
  versionCode : Int
  versionName : String
  releaseNote : Option String
  environment : Environment
  applicationId : Nat
  createdAt : Nat
  updatedAt : Nat
  deletedAt : Option Nat
deriving DecidableEq, Repr

/-- A row of `artifacts`. The table carries
`CONSTRAINT unique_artifact UNIQUE (release_id, abi)`; under Postgres
semantics two NULL `abi` values never conflict. -/
structure ArtifactRow where
  id : Nat
  fileUrl : String
  sha256Hash : String
  fileSize : Nat
  fileType : String
  abi : Option String
  releaseId : Nat
  createdAt : Nat
  updatedAt : Nat
  deletedAt : Option Nat
deriving DecidableEq, Repr

/-- The database state. `nextId` stands in for `gen_random_uuid()` and
`now` for `CURRENT_TIMESTAMP`. -/
structure DB where
  users : List UserRow
  projects : List ProjectRow
  applications : List ApplicationRow
  releases : List ReleaseRow
  artifacts : List ArtifactRow
  nextId : Nat
  now : Nat
deriving DecidableEq, Repr

/-- Insertion into a descending-sorted list, used to model `ORDER BY`.
(`List.mergeSort` does not reduce in the kernel; sort order is irrelevant
to the proved properties, only the multiset of returned rows matters.) -/
def sortedInsertBy {α : Type} (le : α → α → Bool) (a : α) : List α → List α
  | [] => [a]
  | b :: l => if le a b then a :: b :: l else b :: sortedInsertBy le a l

/-- Insertion sort used to model `ORDER BY` clauses. -/
def sortRowsBy {α : Type} (le : α → α → Bool) : List α → List α
  | [] => []
  | a :: l => sortedInsertBy le a (sortRowsBy le l)

namespace Queries

/-! Generated query layer. Modelled from the SQL in
internal/db/queries/&#42;.sql (and the release/artifact/invite query files);
the sqlc-generated Go wrappers are mechanical scan/exec code. A `:one`
query with no matching row surfaces `pgx.ErrNoRows`. -/

/-- `GetProjectByID`: `SELECT &#42; FROM projects WHERE id = $1 AND deleted_at
IS NULL`. -/
def getProjectByID (db : DB) (id : Nat) : Except GoErr ProjectRow :=
  match db.projects.find? (fun p => p.id == id && p.deletedAt == none) with
  | some p => .ok p
  | none => .error .pgNoRows

/-- `GetUserByID`: `SELECT ... FROM users WHERE id = $1 AND deleted_at IS
NULL`. -/
def getUserByID (db : DB) (id : Nat) : Except GoErr UserRow :=
  match db.users.find? (fun u => u.id == id && u.deletedAt == none) with
  | some u => .ok u
  | none => .error .pgNoRows

/-- `GetApplicationByID`: `SELECT &#42; FROM applications WHERE id = $1 AND
deleted_at IS NULL`. -/
def getApplicationByID (db : DB) (id : Nat) : Except GoErr ApplicationRow :=
  match db.applications.find? (fun a => a.id == id && a.deletedAt == none) with
  | some a => .ok a
  | none => .error .pgNoRows

/-- `GetApplicationByPackageName`: `SELECT &#42; FROM applications WHERE
package_name = $1 AND deleted_at IS NULL`. -/
def getApplicationByPackageName (db : DB) (name : String) : Except GoErr ApplicationRow :=
  match db.applications.find? (fun a => a.packageName == name && a.deletedAt == none) with
  | some a => .ok a
  | none => .error .pgNoRows

/-- `ListApplicationsByProject`: live rows of the project, newest first. -/
def listApplicationsByProject (db : DB) (projectId : Nat) : List ApplicationRow :=
  sortRowsBy (fun a b => b.createdAt ≤ a.createdAt)
    (db.applications.filter (fun a => a.projectId == projectId && a.deletedAt == none))

/-- `GetApplicationReleaseByID`: `SELECT &#42; FROM application_releases WHERE
id = $1 AND deleted_at IS NULL`. -/
def getApplicationReleaseByID (db : DB) (id : Nat) : Except GoErr ReleaseRow :=
  match db.releases.find? (fun r => r.id == id && r.deletedAt == none) with
  | some r => .ok r
  | none => .error .pgNoRows

/-- `ListReleasesByApplication`: live rows, `ORDER BY version_code DESC`. -/
def listReleasesByApplication (db : DB) (appId : Nat) : List ReleaseRow :=
  sortRowsBy (fun a b => b.versionCode ≤ a.versionCode)
    (db.releases.filter (fun r => r.applicationId == appId && r.deletedAt == none))

/-- `ListReleasesByEnvironment`: live rows of one environment,
`ORDER BY version_code DESC`. -/
def listReleasesByEnvironment (db : DB) (appId : Nat) (env : Environment) : List ReleaseRow :=
  sortRowsBy (fun a b => b.versionCode ≤ a.versionCode)
    (db.releases.filter
      (fun r => r.applicationId == appId && r.environment == env && r.deletedAt == none))

/-- `GetLatestReleaseByEnvironment`: highest live version code in the
environment, `pgx.ErrNoRows` when the filtered set is empty. -/
def getLatestReleaseByEnvironment (db : DB) (appId : Nat) (env : Environment) :
    Except GoErr ReleaseRow :=
  match (listReleasesByEnvironment db appId env).head? with
  | some r => .ok r
  | none => .error .pgNoRows

/-- Parameters of `CreateApplicationRelease`. -/
structure CreateApplicationReleaseParams where
  title : String
  versionCode : Int
  versionName : String
  releaseNote : Option String
  environment : Environment
  applicationId : Nat
deriving DecidableEq, Repr

/-- `CreateApplicationRelease`: INSERT with RETURNING. The insert violates
`unique_application_release` when any row — live or soft-deleted — already
has the same (application_id, version_code, environment); the plain UNIQUE
constraint does not see `deleted_at`. -/
def createApplicationRelease (db : DB) (p : CreateApplicationReleaseParams) :
    Except GoErr (ReleaseRow × DB) :=
  if db.releases.any (fun r =>
      r.applicationId == p.applicationId && r.versionCode == p.versionCode &&
      r.environment == p.environment) then
    .error (.pgUnique "unique_application_release")
  else
    let row : ReleaseRow :=
      { id := db.nextId, title := p.title, versionCode := p.versionCode,
        versionName := p.versionName, releaseNote := p.releaseNote,
        environment := p.environment, applicationId := p.applicationId,
        createdAt := db.now, updatedAt := db.now, deletedAt := none }
    .ok (row, { db with releases := db.releases ++ [row], nextId := db.nextId + 1 })

/-- Parameters of `CreateArtifact`. -/
structure CreateArtifactParams where
  fileUrl : String
  sha256Hash : String
  fileSize : Nat
  fileType : String
  abi : Option String
  releaseId : Nat
deriving DecidableEq, Repr

/-- `CreateArtifact`: INSERT with RETURNING, violating `unique_artifact`
when another row has the same release and the same non-NULL abi. -/
def createArtifact (db : DB) (p : CreateArtifactParams) :
    Except GoErr (ArtifactRow × DB) :=
  if (match p.abi with
      | none => false
      | some s => db.artifacts.any (fun a => a.releaseId == p.releaseId && a.abi == some s)) then
    .error (.pgUnique "unique_artifact")
  else
    let row : ArtifactRow :=
      { id := db.nextId, fileUrl := p.fileUrl, sha256Hash := p.sha256Hash,
        fileSize := p.fileSize, fileType := p.fileType, abi := p.abi,
        releaseId := p.releaseId, createdAt := db.now, updatedAt := db.now,
        deletedAt := none }
    .ok (row, { db with artifacts := db.artifacts ++ [row], nextId := db.nextId + 1 })

/-- Parameters of `CreateApplication`. -/
structure CreateApplicationParams where
  title : String
  packageName : String
  description : Option String
  projectId : Nat
deriving DecidableEq, Repr

/-- `CreateApplication`: INSERT with RETURNING, violating the global
UNIQUE on `package_name` (live and soft-deleted rows alike). -/
def createApplication (db : DB) (p : CreateApplicationParams) :
    Except GoErr (ApplicationRow × DB) :=
  if db.applications.any (fun a => a.packageName == p.packageName) then
    .error (.pgUnique "applications_package_name_key")
  else
    let row : ApplicationRow :=
      { id := db.nextId, title := p.title, packageName := p.packageName,
        description := p.description, projectId := p.projectId,
        createdAt := db.now, updatedAt := db.now, deletedAt := none }
    .ok (row, { db with applications := db.applications ++ [row], nextId := db.nextId + 1 })

/-- `UpdateRelease`: set title and release_note on the live row,
`RETURNING &#42;`; `pgx.ErrNoRows` when the id is absent or soft-deleted. -/
def updateRelease (db : DB) (id : Nat) (title : String) (releaseNote : Option String) :
    Except GoErr (ReleaseRow × DB) :=
  match db.releases.find? (fun r => r.id == id && r.deletedAt == none) with
  | none => .error .pgNoRows
  | some r =>
    let r2 := { r with title := title, releaseNote := releaseNote, updatedAt := db.now }
    .ok (r2, { db with releases := db.releases.map (fun x =>
        if x.id == id && x.deletedAt == none then r2 else x) })

/-- `PromoteRelease`: set environment on the live row, `RETURNING &#42;`. -/
def promoteRelease (db : DB) (id : Nat) (env : Environment) :
    Except GoErr (ReleaseRow × DB) :=
  match db.releases.find? (fun r => r.id == id && r.deletedAt == none) with
  | none => .error .pgNoRows
  | some r =>
    let r2 := { r with environment := env, updatedAt := db.now }
    .ok (r2, { db with releases := db.releases.map (fun x =>
        if x.id == id && x.deletedAt == none then r2 else x) })

/-- `SoftDeleteApplicationRelease`: set deleted_at on the live row. -/
def softDeleteApplicationRelease (db : DB) (id : Nat) :
    Except GoErr (ReleaseRow × DB) :=
  match db.releases.find? (fun r => r.id == id && r.deletedAt == none) with
  | none => .error .pgNoRows
  | some r =>
    let r2 := { r with deletedAt := some db.now }
    .ok (r2, { db with releases := db.releases.map (fun x =>
        if x.id == id && x.deletedAt == none then r2 else x) })

/-- `TransferProjectOwnership`: set owner_id on the live row,
`RETURNING &#42;`. -/
def transferProjectOwnership (db : DB) (id : Nat) (ownerId : Nat) :
    Except GoErr (ProjectRow × DB) :=
  match db.projects.find? (fun p => p.id == id && p.deletedAt == none) with
  | none => .error .pgNoRows
  | some p =>
    let p2 := { p with ownerId := ownerId, updatedAt := db.now }
    .ok (p2, { db with projects := db.projects.map (fun x =>
        if x.id == id && x.deletedAt == none then p2 else x) })

/-- `GetArtifactByID`: `SELECT &#42; FROM artifacts WHERE id = $1 AND
deleted_at IS NULL`. -/
def getArtifactByID (db : DB) (id : Nat) : Except GoErr ArtifactRow :=
  match db.artifacts.find? (fun a => a.id == id && a.deletedAt == none) with
  | some a => .ok a
  | none => .error .pgNoRows

/-- `ListArtifactsByRelease`: live artifact rows of a release. -/
def listArtifactsByRelease (db : DB) (releaseId : Nat) : List ArtifactRow :=
  db.artifacts.filter (fun a => a.releaseId == releaseId && a.deletedAt == none)

/-- `GetArtifactByReleaseAndABI`: the live artifact row of a release with
the given abi. -/
def getArtifactByReleaseAndABI (db : DB) (releaseId : Nat) (abi : String) :
    Except GoErr ArtifactRow :=
  match db.artifacts.find? (fun a =>
      a.releaseId == releaseId && a.abi == some abi && a.deletedAt == none) with
  | some a => .ok a
  | none => .error .pgNoRows

end Queries

/-! ## Transaction manager (internal/db, part also shown as unnamed
part_002: TxManager.WithTx / WithTxOptions / WithSerializableTx) -/

/-- pgx transaction isolation levels appearing in the repository. The zero
value of `pgx.TxOptions` leaves the level unspecified (the database
default). -/
inductive IsoLevel where
  | unspecified
  | serializable
deriving DecidableEq, Repr

/-- pgx transaction access modes appearing in the repository. -/
inductive AccessMode where
  | unspecified
  | readOnly
deriving DecidableEq, Repr

/-- `pgx.TxOptions`. -/
structure TxOptions where
  isoLevel : IsoLevel
  accessMode : AccessMode
deriving DecidableEq, Repr

/-- The zero value `pgx.TxOptions{}` that `WithTx` passes to
`WithTxOptions`. -/
def txOptionsZero : TxOptions := { isoLevel := .unspecified, accessMode := .unspecified }

/-- The options `WithSerializableTx` passes:
`pgx.TxOptions{IsoLevel: pgx.Serializable}`. -/
def txOptionsSerializable : TxOptions :=
  { isoLevel := .serializable, accessMode := .unspecified }

/-- Injected infrastructure failures for one transaction: `BeginTx`,
`Commit` and `Rollback` may each fail with a driver error. `none`
everywhere is the fault-free execution. -/
structure TxFaults where
  beginErr : Option GoErr
  commitErr : Option GoErr
  rollbackErr : Option GoErr
deriving DecidableEq, Repr

/-- The fault-free transaction environment. -/
def noTxFaults : TxFaults := { beginErr := none, commitErr := none, rollbackErr := none }

/-- Observable side effects of a service call, used to state where a
transaction is opened and when storage is contacted. -/
inductive Event where
  | beginTx (opts : TxOptions)
  | download (path : String)
deriving DecidableEq, Repr

/-- `TxManager.WithTxOptions` (db.go lines 48-79). The unit of work `fn`
receives the transaction-scoped state and returns the updated state with
its result; Lean threads the value the Go closure captures. Semantics per
the source: a `BeginTx` failure is wrapped as "begin transaction: %w"; an
error from `fn` rolls the state back and is returned as-is, unless the
rollback itself also fails, in which case the original error is wrapped
with `%w` inside "rollback failed: ... (original error: %w)"; on success
the state is committed, a `Commit` failure being wrapped as "commit
transaction: %w" with no state change persisted. -/
def withTxOptions {α : Type} (faults : TxFaults) (opts : TxOptions)
    (fn : DB → DB × Except GoErr α) (db : DB) :
    DB × Except GoErr α × List Event :=
  match faults.beginErr with
  | some e => (db, .error (.wrapf "begin transaction" e), [.beginTx opts])
  | none =>
    match fn db with
    | (db2, .ok a) =>
      match faults.commitErr with
      | some ce => (db, .error (.wrapf "commit transaction" ce), [.beginTx opts])
      | none => (db2, .ok a, [.beginTx opts])
    | (_, .error e) =>
      match faults.rollbackErr with
      | some rb =>
        (db, .error (.wrapf ("rollback failed: " ++ errText rb ++ " (original error") e),
          [.beginTx opts])
      | none => (db, .error e, [.beginTx opts])

/-- `TxManager.WithTx`: `WithTxOptions` with the zero `pgx.TxOptions`. -/
def withTx {α : Type} (faults : TxFaults) (fn : DB → DB × Except GoErr α) (db : DB) :
    DB × Except GoErr α × List Event :=
  withTxOptions faults txOptionsZero fn db

/-- `TxManager.WithSerializableTx`: `WithTxOptions` at the serializable
isolation level. -/
def withSerializableTx {α : Type} (faults : TxFaults)
    (fn : DB → DB × Except GoErr α) (db : DB) :
    DB × Except GoErr α × List Event :=
  withTxOptions faults txOptionsSerializable fn db

/-! ## SHA-256 and the streaming hash of the ingestion pipeline

Modelled from the spec: the pipeline's hashing uses Go's `crypto/sha256`,
`encoding/hex` and `io.Copy`/`io.MultiWriter`, which are standard-library
code outside this repository; they are embedded here from their documented
behaviour (FIPS 180-4 SHA-256; lowercase hex encoding; single-pass copy
that feeds every read chunk to each writer and counts bytes written). -/

/-- The SHA-256 round constants. -/
def shaK : List Nat :=
  [1116352408, 1899447441, 3049323471, 3921009573, 961987163,
   1508970993, 2453635748, 2870763221, 3624381080, 310598401,
   607225278, 1426881987, 1925078388, 2162078206, 2614888103,
   3248222580, 3835390401, 4022224774, 264347078, 604807628,
   770255983, 1249150122, 1555081692, 1996064986, 2554220882,
   2821834349, 2952996808, 3210313671, 3336571891, 3584528711,
   113926993, 338241895, 666307205, 773529912, 1294757372,
   1396182291, 1695183700, 1986661051, 2177026350, 2456956037,
   2730485921, 2820302411, 3259730800, 3345764771, 3516065817,
   3600352804, 4094571909, 275423344, 430227734, 506948616,
   659060556, 883997877, 958139571, 1322822218, 1537002063,
   1747873779, 1955562222, 2024104815, 2227730452, 2361852424,
   2428436474, 2756734187, 3204031479, 3329325298]

/-- The SHA-256 initial hash value. -/
def shaH0 : List Nat :=
  [1779033703, 3144134277, 1013904242, 2773480762,
   1359893119, 2600822924, 528734635, 1541459225]

/-- Right rotation of a 32-bit word. -/
def rotr32 (n x : Nat) : Nat := ((x >>> n) ||| (x <<< (32 - n))) % 2 ^ 32

/-- Bitwise complement of a 32-bit word. -/
def not32 (x : Nat) : Nat := x ^^^ 0xffffffff

/-- SHA-256 Ch function. -/
def shaCh (x y z : Nat) : Nat := (x &&& y) ^^^ (not32 x &&& z)

/-- SHA-256 Maj function. -/
def shaMaj (x y z : Nat) : Nat := (x &&& y) ^^^ (x &&& z) ^^^ (y &&& z)

/-- SHA-256 Σ0. -/
def bigSigma0 (x : Nat) : Nat := rotr32 2 x ^^^ rotr32 13 x ^^^ rotr32 22 x

/-- SHA-256 Σ1. -/
def bigSigma1 (x : Nat) : Nat := rotr32 6 x ^^^ rotr32 11 x ^^^ rotr32 25 x

/-- SHA-256 σ0. -/
def smallSigma0 (x : Nat) : Nat := rotr32 7 x ^^^ rotr32 18 x ^^^ (x >>> 3)

/-- SHA-256 σ1. -/
def smallSigma1 (x : Nat) : Nat := rotr32 17 x ^^^ rotr32 19 x ^^^ (x >>> 10)

/-- Big-endian 32-bit words from a byte list. -/
def chunkWords : List Nat → List Nat
  | b0 :: b1 :: b2 :: b3 :: rest =>
    (((b0 % 256 * 256 + b1 % 256) * 256 + b2 % 256) * 256 + b3 % 256) :: chunkWords rest
  | _ => []

/-- Extend a 16-word message schedule by `rounds` further words. -/
def shaSchedule (ws : List Nat) : Nat → List Nat
  | 0 => ws
  | n + 1 =>
    let t := ws.length
    let nw := (smallSigma1 (ws.getD (t - 2) 0) + ws.getD (t - 7) 0 +
               smallSigma0 (ws.getD (t - 15) 0) + ws.getD (t - 16) 0) % 2 ^ 32
    shaSchedule (ws ++ [nw]) n

/-- One SHA-256 round on the working variables [a,b,c,d,e,f,g,h]. -/
def shaRound (st : List Nat) (kw : Nat × Nat) : List Nat :=
  match st with
  | [a, b, c, d, e, f, g, h] =>
    let t1 := (h + bigSigma1 e + shaCh e f g + kw.1 + kw.2) % 2 ^ 32
    let t2 := (bigSigma0 a + shaMaj a b c) % 2 ^ 32
    [(t1 + t2) % 2 ^ 32, a, b, c, (d + t1) % 2 ^ 32, e, f, g]
  | other => other

/-- The SHA-256 compression function on one 64-byte block. -/
def shaCompress (h : List Nat) (block : List Nat) : List Nat :=
  let ws := shaSchedule (chunkWords block) 48
  let st := (shaK.zip ws).foldl shaRound h
  (h.zip st).map (fun p => (p.1 + p.2) % 2 ^ 32)

/-- Compress `n` successive 64-byte blocks taken from the front of
`data`. -/
def processBlocksN : Nat → List Nat → List Nat → List Nat
  | 0, h, _ => h
  | n + 1, h, data => processBlocksN n (shaCompress h (data.take 64)) (data.drop 64)

/-- Compress every complete 64-byte block of `data`. -/
def processBlocks (h data : List Nat) : List Nat :=
  processBlocksN (data.length / 64) h data

/-- Running state of a `sha256.New()` hasher: the chained hash words, the
buffered partial block, and the total byte count written so far. -/
structure Sha256Ctx where
  h : List Nat
  buf : List Nat
  totalLen : Nat
deriving DecidableEq, Repr

/-- `sha256.New()`. -/
def shaNew : Sha256Ctx := { h := shaH0, buf := [], totalLen := 0 }

/-- `Hash.Write(data)`: absorb the bytes, compressing every completed
64-byte block and buffering the remainder. -/
def shaWrite (s : Sha256Ctx) (data : List Nat) : Sha256Ctx :=
  let all := s.buf ++ data
  let k := 64 * (all.length / 64)
  { h := processBlocks s.h (all.take k), buf := all.drop k,
    totalLen := s.totalLen + data.length }

/-- Big-endian length field of the final SHA-256 block (bit count over 8
bytes). -/
def lenBytes64 (bits : Nat) : List Nat :=
  (List.range 8).map (fun i => bits / 2 ^ (8 * (7 - i)) % 256)

/-- SHA-256 padding: 0x80, zeros to 56 mod 64, then the 64-bit bit
length. -/
def shaPad (bufLen totalLen : Nat) : List Nat :=
  let used := (bufLen + 1) % 64
  let zeros := if used ≤ 56 then 56 - used else 120 - used
  0x80 :: (List.replicate zeros 0 ++ lenBytes64 (totalLen * 8))

/-- Big-endian bytes of a 32-bit word. -/
def word32Bytes (w : Nat) : List Nat :=
  [w / 2 ^ 24 % 256, w / 2 ^ 16 % 256, w / 2 ^ 8 % 256, w % 256]

/-- `Hash.Sum(nil)`: pad the buffered tail and serialize the hash words. -/
def shaSum (s : Sha256Ctx) : List Nat :=
  (processBlocks s.h (s.buf ++ shaPad s.buf.length s.totalLen)).flatMap word32Bytes

/-- One-shot SHA-256 of a byte list. -/
def sha256Bytes (msg : List Nat) : List Nat := shaSum (shaWrite shaNew msg)

/-- The sixteen lowercase hex digits. -/
def hexDigits : List Char := "0123456789abcdef".data

/-- Two lowercase hex digits of one byte. -/
def hexByte (b : Nat) : List Char :=
  [hexDigits.getD (b / 16 % 16) '0', hexDigits.getD (b % 16) '0']

/-- `hex.EncodeToString`: lowercase hex of a byte list. -/
def hexEncodeToString (bs : List Nat) : String :=
  String.mk (bs.flatMap hexByte)

/-- `io.Copy(io.MultiWriter(tmpFile, hasher), reader)` over the chunk
sequence the reader yields: one pass that feeds each chunk to the hasher,
appends it to the temp file, and counts the bytes written. Returns the
final hasher state, the temp-file contents, and the byte count. -/
def ioCopyMulti (chunks : List (List Nat)) : Sha256Ctx × List Nat × Nat :=
  chunks.foldl
    (fun acc c => (shaWrite acc.1 c, acc.2.1 ++ c, acc.2.2 + c.length))
    (shaNew, [], 0)

/-! ## Domain objects and repository layer
(internal/domain, internal/repository/postgres) -/

/-- `domain.Project` as populated by `projectToDoMain` (postgres project
repository): soft-delete time is not copied to the domain object. -/
structure Project where
  id : Nat
  title : String
  description : String
  ownerId : Nat
  createdAt : Nat
  updatedAt : Nat
deriving DecidableEq, Repr

/-- `domain.Application` as populated by `rowToApplication`. -/
structure Application where
  id : Nat
  title : String
  packageName : String
  description : String
  projectId : Nat
  createdAt : Nat
  updatedAt : Nat
deriving DecidableEq, Repr

/-- `domain.ApplicationRelease` as populated by `rowToRelease`. -/
structure ApplicationRelease where
  id : Nat
  title : String
  versionCode : Int
  versionName : String
  releaseNote : String
  environment : Environment
  applicationId : Nat
  createdAt : Nat
  updatedAt : Nat
deriving DecidableEq, Repr

/-- `domain.Artifact` as populated by `rowToArtifact`. -/
structure Artifact where
  id : Nat
  fileUrl : String
  sha256 : String
  fileSize : Nat
  fileType : String
  abi : Option String
  releaseId : Nat
  createdAt : Nat
  updatedAt : Nat
  deletedAt : Option Nat
deriving DecidableEq, Repr

/-- `domain.ApplicationMetadata`. -/
structure ApplicationMetadata where
  packageName : String
  versionCode : Int
  versionName : String
  minSdkVersion : Int
  targetSdkVersion : Int
  architecture : String
  platform : String
  sha256 : String
  fileSize : Nat
deriving DecidableEq, Repr

/-- `domain.CreateReleaseInput`. -/
structure CreateReleaseInput where
  title : String
  versionCode : Int
  versionName : String
  releaseNote : String
  environment : Environment
  applicationId : Nat
deriving DecidableEq, Repr

/-- `domain.CreateArtifactInput`. -/
structure CreateArtifactInput where
  releaseId : Nat
  fileUrl : String
  sha256 : String
  fileSize : Nat
  fileType : String
  abi : Option String
deriving DecidableEq, Repr

/-- `domain.CreateApplicationInput`. -/
structure CreateApplicationInput where
  title : String
  packageName : String
  description : String
  projectId : Nat
deriving DecidableEq, Repr

/-- `domain.CreateApplicationFromArtifactInput`. -/
structure CreateApplicationFromArtifactInput where
  title : String
  projectId : Nat
  artifactURL : String
deriving DecidableEq, Repr

/-- `postgres.rowToRelease`. -/
def rowToRelease (r : ReleaseRow) : ApplicationRelease :=
  { id := r.id, title := r.title, versionCode := r.versionCode,
    versionName := r.versionName, releaseNote := pgtypeToString r.releaseNote,
    environment := r.environment, applicationId := r.applicationId,
    createdAt := r.createdAt, updatedAt := r.updatedAt }

/-- `postgres.rowToApplication`. -/
def rowToApplication (a : ApplicationRow) : Application :=
  { id := a.id, title := a.title, packageName := a.packageName,
    description := pgtypeToString a.description, projectId := a.projectId,
    createdAt := a.createdAt, updatedAt := a.updatedAt }

/-- `postgres.projectToDoMain`. -/
def projectToDoMain (p : ProjectRow) : Project :=
  { id := p.id, title := p.title, description := p.description,
    ownerId := p.ownerId, createdAt := p.createdAt, updatedAt := p.updatedAt }

/-- `postgres.rowToArtifact`. -/
def rowToArtifact (a : ArtifactRow) : Artifact :=
  { id := a.id, fileUrl := a.fileUrl, sha256 := a.sha256Hash,
    fileSize := a.fileSize, fileType := a.fileType, abi := a.abi,
    releaseId := a.releaseId, createdAt := a.createdAt,
    updatedAt := a.updatedAt, deletedAt := a.deletedAt }

namespace ProjectRepository

/-- `ProjectRepository.GetByIDTx`. -/
def getByIDTx (q : DB) (id : Nat) : Except GoErr Project :=
  match Queries.getProjectByID q id with
  | .error e => .error (translateError e)
  | .ok row => .ok (projectToDoMain row)

/-- `ProjectRepository.GetByID` delegates to `GetByIDTx` on the plain
query handle. -/
def getByID (db : DB) (id : Nat) : Except GoErr Project :=
  getByIDTx db id

/-- `ProjectRepository.TransferOwnershipTx`. -/
def transferOwnershipTx (q : DB) (id newOwnerId : Nat) : Except GoErr (Project × DB) :=
  match Queries.transferProjectOwnership q id newOwnerId with
  | .error e => .error (translateError e)
  | .ok (row, q2) => .ok (projectToDoMain row, q2)

end ProjectRepository

namespace UserRepository

/-- `UserRepository.GetByIDTx` (postgres user repository). -/
def getByIDTx (q : DB) (id : Nat) : Except GoErr UserRow :=
  match Queries.getUserByID q id with
  | .error e => .error (translateError e)
  | .ok row => .ok row

end UserRepository

namespace ApplicationRepository

/-- `ApplicationRepository.GetByID`. -/
def getByID (db : DB) (id : Nat) : Except GoErr Application :=
  match Queries.getApplicationByID db id with
  | .error e => .error (translateError e)
  | .ok row => .ok (rowToApplication row)

/-- `ApplicationRepository.GetByPackageName`. -/
def getByPackageName (db : DB) (name : String) : Except GoErr Application :=
  match Queries.getApplicationByPackageName db name with
  | .error e => .error (translateError e)
  | .ok row => .ok (rowToApplication row)

/-- `ApplicationRepository.ListByProject`. -/
def listByProject (db : DB) (projectId : Nat) : Except GoErr (List Application) :=
  .ok ((Queries.listApplicationsByProject db projectId).map rowToApplication)

/-- `ApplicationRepository.PackageNameExists`: probes
`GetApplicationByPackageName`, treating `pgx.ErrNoRows` as "does not
exist". -/
def packageNameExists (db : DB) (name : String) : Except GoErr Bool :=
  match Queries.getApplicationByPackageName db name with
  | .error e => if goIs e .pgNoRows then .ok false else .error (translateError e)
  | .ok _ => .ok true

/-- Modelled from the spec: `ApplicationRepository.CreateTx` is called by
`ApplicationService.CreateFromArtifact` but its body is not among the
provided sources; per the repository interface and the sibling `Create`
wrappers it runs the `CreateApplication` insert on the transaction-scoped
queries and translates errors. -/
def createTx (q : DB) (input : CreateApplicationInput) : Except GoErr (Application × DB) :=
  match Queries.createApplication q
      { title := input.title, packageName := input.packageName,
        description := stringToPgtype input.description, projectId := input.projectId } with
  | .error e => .error (translateError e)
  | .ok (row, q2) => .ok (rowToApplication row, q2)

end ApplicationRepository

namespace ReleaseRepository

/-- `ReleaseRepository.Create`. -/
def create (db : DB) (input : CreateReleaseInput) : Except GoErr (ApplicationRelease × DB) :=
  match Queries.createApplicationRelease db
      { title := input.title, versionCode := input.versionCode,
        versionName := input.versionName,
        releaseNote := stringToPgtype input.releaseNote,
        environment := input.environment, applicationId := input.applicationId } with
  | .error e => .error (translateError e)
  | .ok (row, db2) => .ok (rowToRelease row, db2)

/-- `ReleaseRepository.CreateTx`: the same insert against the
transaction-scoped queries. -/
def createTx (q : DB) (input : CreateReleaseInput) : Except GoErr (ApplicationRelease × DB) :=
  create q input

/-- `ReleaseRepository.GetByID`. -/
def getByID (db : DB) (id : Nat) : Except GoErr ApplicationRelease :=
  match Queries.getApplicationReleaseByID db id with
  | .error e => .error (translateError e)
  | .ok row => .ok (rowToRelease row)

/-- `ReleaseRepository.ListByApplication`. -/
def listByApplication (db : DB) (appId : Nat) : Except GoErr (List ApplicationRelease) :=
  .ok ((Queries.listReleasesByApplication db appId).map rowToRelease)

/-- `ReleaseRepository.GetLatestByEnvironment`. -/
def getLatestByEnvironment (db : DB) (appId : Nat) (env : Environment) :
    Except GoErr ApplicationRelease :=
  match Queries.getLatestReleaseByEnvironment db appId env with
  | .error e => .error (translateError e)
  | .ok row => .ok (rowToRelease row)

/-- `ReleaseRepository.Update`. -/
def update (db : DB) (id : Nat) (title releaseNote : String) :
    Except GoErr (ApplicationRelease × DB) :=
  match Queries.updateRelease db id title (stringToPgtype releaseNote) with
  | .error e => .error (translateError e)
  | .ok (row, db2) => .ok (rowToRelease row, db2)

/-- `ReleaseRepository.Promote`. -/
def promote (db : DB) (id : Nat) (env : Environment) :
    Except GoErr (ApplicationRelease × DB) :=
  match Queries.promoteRelease db id env with
  | .error e => .error (translateError e)
  | .ok (row, db2) => .ok (rowToRelease row, db2)

/-- `ReleaseRepository.SoftDelete`. -/
def softDelete (db : DB) (id : Nat) : Except GoErr DB :=
  match Queries.softDeleteApplicationRelease db id with
  | .error e => .error (translateError e)
  | .ok (_, db2) => .ok db2

end ReleaseRepository

namespace ArtifactRepository

/-- `ArtifactRepository.CreateTx`. -/
def createTx (q : DB) (input : CreateArtifactInput) : Except GoErr (Artifact × DB) :=
  match Queries.createArtifact q
      { fileUrl := input.fileUrl, sha256Hash := input.sha256,
        fileSize := input.fileSize, fileType := input.fileType,
        abi := stringToPgtype (derefString input.abi), releaseId := input.releaseId } with
  | .error e => .error (translateError e)
  | .ok (row, q2) => .ok (rowToArtifact row, q2)

/-- `ArtifactRepository.GetByID`. -/
def getByID (db : DB) (id : Nat) : Except GoErr Artifact :=
  match Queries.getArtifactByID db id with
  | .error e => .error (translateError e)
  | .ok row => .ok (rowToArtifact row)

/-- `ArtifactRepository.ListByRelease`. -/
def listByRelease (db : DB) (releaseId : Nat) : Except GoErr (List Artifact) :=
  .ok ((Queries.listArtifactsByRelease db releaseId).map rowToArtifact)

end ArtifactRepository

/-! ## External collaborators of the services -/

/-- The result of `net/url.Parse` that the code inspects: only the path
component is read. -/
structure UrlInfo where
  path : String
deriving DecidableEq, Repr

/-- The data read from a parsed APK by the third-party
`androidbinary/apk` package: package name, manifest version code and
name, and SDK levels. -/
structure ApkInfo where
  packageName : String
  versionCode : Int
  versionName : String
  minSdk : Int
  targetSdk : Int
deriving DecidableEq, Repr

/-- The collaborators a service call runs against, mirroring the
interfaces the Go services consume. Modelled from the spec: `urlParse` is
`net/url.Parse` (stdlib), `storageExtractStoragePath` is the
`storage.Storage.ExtractStoragePath` implementation (not among the
provided sources), `download` is `storage.Storage.Download` — yielding
the chunk sequence the returned reader produces and an optional mid-read
failure — `apkOpen` is `apk.OpenFile` on the downloaded bytes, and
`tmpCreateErr` injects an `os.CreateTemp` failure. -/
structure Ctx where
  urlParse : String → Option UrlInfo
  storageExtractStoragePath : String → String × Bool
  download : String → Except GoErr (List (List Nat) × Option GoErr)
  apkOpen : List Nat → Except GoErr ApkInfo
  tmpCreateErr : Option GoErr

/-- Injected infrastructure failures for the individual INSERT statements
run inside the ingestion transactions; `none` everywhere is the
fault-free database. -/
structure DbFaults where
  appInsertErr : Option GoErr
  releaseInsertErr : Option GoErr
  artifactInsertErr : Option GoErr
deriving DecidableEq, Repr

/-- The fault-free statement environment. -/
def noDbFaults : DbFaults :=
  { appInsertErr := none, releaseInsertErr := none, artifactInsertErr := none }

/-- `strings.TrimPrefix(path, "/")`: drop one leading slash when
present. -/
def trimLeadingSlash (p : String) : String :=
  match p.data with
  | '/' :: rest => String.mk rest
  | _ => p

namespace ReleaseService

/-- `ReleaseService.extractStoragePath` (release_service.go lines
262-275): parse the URL, strip the leading slash from its path, and
accept it as internal; only a URL that fails to parse is rejected. -/
def extractStoragePath (ctx : Ctx) (rawURL : String) : String × Bool :=
  match ctx.urlParse rawURL with
  | none => ("", false)
  | some parsed => (trimLeadingSlash parsed.path, true)

/-- `ReleaseService.Create` (release_service.go lines 51-69): resolve the
application and its project, require the caller to be the project owner,
then insert the release, letting the unique constraint surface
duplicates. -/
def create (db : DB) (userID : Nat) (input : CreateReleaseInput) :
    DB × Except GoErr ApplicationRelease :=
  match ApplicationRepository.getByID db input.applicationId with
  | .error e => (db, .error e)
  | .ok app =>
    match ProjectRepository.getByID db app.projectId with
    | .error e => (db, .error e)
    | .ok project =>
      if project.ownerId ≠ userID then (db, .error ErrNotProjectOwner)
      else
        match ReleaseRepository.create db input with
        | .error e => (db, .error e)
        | .ok (rel, db2) => (db2, .ok rel)

/-- `ReleaseService.Update` (release_service.go lines 72-94). -/
def update (db : DB) (userID releaseID : Nat) (title releaseNote : String) :
    DB × Except GoErr ApplicationRelease :=
  match ReleaseRepository.getByID db releaseID with
  | .error e => (db, .error e)
  | .ok release =>
    match ApplicationRepository.getByID db release.applicationId with
    | .error e => (db, .error e)
    | .ok app =>
      match ProjectRepository.getByID db app.projectId with
      | .error e => (db, .error e)
      | .ok project =>
        if project.ownerId ≠ userID then (db, .error ErrNotProjectOwner)
        else
          match ReleaseRepository.update db releaseID title releaseNote with
          | .error e => (db, .error e)
          | .ok (rel, db2) => (db2, .ok rel)

/-- `ReleaseService.Promote` (release_service.go lines 97-119). -/
def promote (db : DB) (userID releaseID : Nat) (env : Environment) :
    DB × Except GoErr ApplicationRelease :=
  match ReleaseRepository.getByID db releaseID with
  | .error e => (db, .error e)
  | .ok release =>
    match ApplicationRepository.getByID db release.applicationId with
    | .error e => (db, .error e)
    | .ok app =>
      match ProjectRepository.getByID db app.projectId with
      | .error e => (db, .error e)
      | .ok project =>
        if project.ownerId ≠ userID then (db, .error ErrNotProjectOwner)
        else
          match ReleaseRepository.promote db releaseID env with
          | .error e => (db, .error e)
          | .ok (rel, db2) => (db2, .ok rel)

/-- `ReleaseService.Delete` (release_service.go lines 122-144). -/
def delete (db : DB) (userID releaseID : Nat) : DB × Except GoErr Unit :=
  match ReleaseRepository.getByID db releaseID with
  | .error e => (db, .error e)
  | .ok release =>
    match ApplicationRepository.getByID db release.applicationId with
    | .error e => (db, .error e)
    | .ok app =>
      match ProjectRepository.getByID db app.projectId with
      | .error e => (db, .error e)
      | .ok project =>
        if project.ownerId ≠ userID then (db, .error ErrNotProjectOwner)
        else
          match ReleaseRepository.softDelete db releaseID with
          | .error e => (db, .error e)
          | .ok db2 => (db2, .ok ())

/-- The unit of work `CreateReleaseWithArtifactURL` hands to
`TxManager.WithTx` (release_service.go lines 225-253): create the release
through `ReleaseRepository.CreateTx` — title synthesized as
"Release {versionName} ({versionCode})" — then the artifact through
`ArtifactRepository.CreateTx` with the canonical APK MIME type and no
ABI. Each statement may also fail with an injected driver fault, which
the repository wrappers pass through `translateError`. -/
def createReleaseTxBody (dbf : DbFaults) (appID : Nat)
    (artifactURL sha256Hex : String) (fileSize : Nat)
    (versionCode : Int) (versionName releaseNote : String)
    (environment : Environment) (q : DB) : DB × Except GoErr ApplicationRelease :=
  match dbf.releaseInsertErr with
  | some e => (q, .error (translateError e))
  | none =>
    match ReleaseRepository.createTx q
        { title := "Release " ++ versionName ++ " (" ++ toString versionCode ++ ")",
          versionCode := versionCode, versionName := versionName,
          releaseNote := releaseNote, environment := environment,
          applicationId := appID } with
    | .error e => (q, .error e)
    | .ok (release, q1) =>
      match dbf.artifactInsertErr with
      | some e => (q1, .error (translateError e))
      | none =>
        match ArtifactRepository.createTx q1
            { releaseId := release.id, fileUrl := artifactURL,
              sha256 := sha256Hex, fileSize := fileSize,
              fileType := "application/vnd.android.package-archive",
              abi := none } with
        | .error e => (q1, .error e)
        | .ok (_, q2) => (q2, .ok release)

/-- `ReleaseService.CreateReleaseWithArtifactURL` (release_service.go
lines 163-260): ownership chain and owner check first; resolve the URL to
a storage path (rejecting a non-internal URL before any download);
download, hash and buffer in one `io.Copy` pass; parse the APK; check the
package name against the application; then create release and artifact in
one transaction. -/
def createReleaseWithArtifactURL (ctx : Ctx) (txf : TxFaults) (dbf : DbFaults)
    (db : DB) (userID appID : Nat) (artifactURL releaseNote : String)
    (environment : Environment) :
    DB × Except GoErr ApplicationRelease × List Event :=
  match ApplicationRepository.getByID db appID with
  | .error e => (db, .error e, [])
  | .ok app =>
    match ProjectRepository.getByID db app.projectId with
    | .error e => (db, .error e, [])
    | .ok project =>
      if project.ownerId ≠ userID then
        (db, .error (WrapError .notProjectOwner
          ("access denied: user " ++ toString userID ++ " is not the owner of project "
            ++ toString project.id) ErrNotProjectOwner), [])
      else
        match extractStoragePath ctx artifactURL with
        | (_, false) =>
          (db, .error (NewValidationError "artifact_url"
            "only internal artifacts are supported for now"), [])
        | (storagePath, true) =>
          match ctx.download storagePath with
          | .error e =>
            (db, .error (.wrapf "failed to download artifact" e), [.download storagePath])
          | .ok (chunks, readErr) =>
            match ctx.tmpCreateErr with
            | some e =>
              (db, .error (.wrapf "failed to create temp file" e), [.download storagePath])
            | none =>
              match readErr with
              | some e =>
                (db, .error (.wrapf "failed to save artifact" e), [.download storagePath])
              | none =>
                let copied := ioCopyMulti chunks
                let fileSize := copied.2.2
                let sha256Hex := hexEncodeToString (shaSum copied.1)
                match ctx.apkOpen copied.2.1 with
                | .error e =>
                  (db, .error (NewValidationError "artifact_url"
                    ("invalid APK file: " ++ errText e)), [.download storagePath])
                | .ok pkg =>
                  if app.packageName ≠ pkg.packageName then
                    (db, .error (NewValidationError "artifact_url"
                      ("package name mismatch: expected " ++ app.packageName ++ ", got "
                        ++ pkg.packageName)), [.download storagePath])
                  else
                    match withTx txf
                        (createReleaseTxBody dbf appID artifactURL sha256Hex fileSize
                          pkg.versionCode pkg.versionName releaseNote environment) db with
                    | (db2, r, txEvents) =>
                      (db2, r, .download storagePath :: txEvents)

end ReleaseService

namespace APKService

/-- `APKService.ExtractMetadataFromURL` (apk_service.go lines 30-104):
resolve the URL through the storage subsystem, download, hash and buffer
in one pass, open the APK — a failure here is wrapped as "failed to open
APK file: %w" — and assemble the metadata, with platform fixed to
"android" and architecture to "universal". -/
def extractMetadataFromURL (ctx : Ctx) (artifactURL : String) :
    Except GoErr ApplicationMetadata × List Event :=
  match ctx.storageExtractStoragePath artifactURL with
  | (_, false) =>
    (.error (NewValidationError "artifact_url"
      "only internal artifacts are supported for now"), [])
  | (storagePath, true) =>
    match ctx.download storagePath with
    | .error e =>
      (.error (.wrapf "failed to download artifact" e), [.download storagePath])
    | .ok (chunks, readErr) =>
      match ctx.tmpCreateErr with
      | some e =>
        (.error (.wrapf "failed to create temp file" e), [.download storagePath])
      | none =>
        match readErr with
        | some e =>
          (.error (.wrapf "failed to save artifact to temp file" e), [.download storagePath])
        | none =>
          let copied := ioCopyMulti chunks
          match ctx.apkOpen copied.2.1 with
          | .error e =>
            (.error (.wrapf "failed to open APK file" e), [.download storagePath])
          | .ok pkg =>
            (.ok { packageName := pkg.packageName, versionCode := pkg.versionCode,
                   versionName := pkg.versionName, minSdkVersion := pkg.minSdk,
                   targetSdkVersion := pkg.targetSdk, architecture := "universal",
                   platform := "android",
                   sha256 := hexEncodeToString (shaSum copied.1),
                   fileSize := copied.2.2 },
              [.download storagePath])

end APKService

namespace ApplicationService

/-- The unit of work `CreateFromArtifact` hands to `TxManager.WithTx`
(unnamed part_021 lines 98-135): create the application, an initial
production release titled "Initial Release {versionName} ({versionCode})"
with note "Initial release from creation", and the artifact. -/
def createFromArtifactTxBody (dbf : DbFaults)
    (input : CreateApplicationFromArtifactInput) (metadata : ApplicationMetadata)
    (q : DB) : DB × Except GoErr Application :=
  match dbf.appInsertErr with
  | some e => (q, .error (translateError e))
  | none =>
    match ApplicationRepository.createTx q
        { title := input.title, packageName := metadata.packageName,
          description := "", projectId := input.projectId } with
    | .error e => (q, .error e)
    | .ok (app, q1) =>
      match dbf.releaseInsertErr with
      | some e => (q1, .error (translateError e))
      | none =>
        match ReleaseRepository.createTx q1
            { title := "Initial Release " ++ metadata.versionName ++ " ("
                ++ toString metadata.versionCode ++ ")",
              versionCode := metadata.versionCode,
              versionName := metadata.versionName,
              releaseNote := "Initial release from creation",
              environment := .production, applicationId := app.id } with
        | .error e => (q1, .error e)
        | .ok (release, q2) =>
          match dbf.artifactInsertErr with
          | some e => (q2, .error (translateError e))
          | none =>
            match ArtifactRepository.createTx q2
                { releaseId := release.id, fileUrl := input.artifactURL,
                  sha256 := metadata.sha256, fileSize := metadata.fileSize,
                  fileType := "application/vnd.android.package-archive",
                  abi := none } with
            | .error e => (q2, .error e)
            | .ok (_, q3) => (q3, .ok app)

/-- `ApplicationService.CreateFromArtifact` (unnamed part_021 lines
70-142): verify the project and ownership, parse the APK through
`APKService`, check package-name availability, then create application,
initial release and artifact in one transaction. -/
def createFromArtifact (ctx : Ctx) (txf : TxFaults) (dbf : DbFaults) (db : DB)
    (userId : Nat) (input : CreateApplicationFromArtifactInput) :
    DB × Except GoErr Application × List Event :=
  match ProjectRepository.getByID db input.projectId with
  | .error e => (db, .error e, [])
  | .ok project =>
    if project.ownerId ≠ userId then (db, .error ErrNotProjectOwner, [])
    else
      match APKService.extractMetadataFromURL ctx input.artifactURL with
      | (.error e, events) => (db, .error e, events)
      | (.ok metadata, events) =>
        match ApplicationRepository.packageNameExists db metadata.packageName with
        | .error e => (db, .error e, events)
        | .ok true => (db, .error ErrPackageNameExists, events)
        | .ok false =>
          match withTx txf (createFromArtifactTxBody dbf input metadata) db with
          | (db2, r, txEvents) => (db2, r, events ++ txEvents)

end ApplicationService

namespace ProjectService

/-- `ProjectService.TransferOwnership` (project_service.go lines
120-164): inside a `WithTx` default-options transaction, load the project
(mapping `ErrNotFound` to `ErrProjectNotFound`), require the requester to
be the current owner, verify the new owner exists (mapping `ErrNotFound`
to a `new_owner_id` validation error), and update the owner column,
wrapping an update failure as an internal error. -/
def transferOwnership (txf : TxFaults) (db : DB)
    (projectID newOwnerID requesterID : Nat) :
    DB × Except GoErr Project × List Event :=
  withTx txf
    (fun q =>
      match ProjectRepository.getByIDTx q projectID with
      | .error e =>
        (q, .error (if goIs e ErrNotFound then ErrProjectNotFound else e))
      | .ok project =>
        if project.ownerId ≠ requesterID then (q, .error ErrNotProjectOwner)
        else
          match UserRepository.getByIDTx q newOwnerID with
          | .error e =>
            (q, .error (if goIs e ErrNotFound then
              NewValidationError "new_owner_id" "new owner does not exist" else e))
          | .ok _ =>
            match ProjectRepository.transferOwnershipTx q projectID newOwnerID with
            | .error e =>
              (q, .error (WrapError .internal "failed to transfer ownership" e))
            | .ok (p, q1) => (q1, .ok p))
    db

end ProjectService

/-! ## Statement-level predicates and concrete fixtures -/

/-- Whether an error is a `ValidationError` tagged to the given field. -/
def isValidationErrorOnField (field : String) : GoErr → Bool
  | .validationError f _ => f == field
  | _ => false

/-- A sample project owned by user 7. -/
def sampleProject : ProjectRow :=
  { id := 1, title := "Proj", description := "", ownerId := 7,
    createdAt := 0, updatedAt := 0, deletedAt := none }

/-- A sample application of `sampleProject`. -/
def sampleApp : ApplicationRow :=
  { id := 2, title := "App", packageName := "com.example.app",
    description := none, projectId := 1, createdAt := 0, updatedAt := 0,
    deletedAt := none }

/-- A sample production release of `sampleApp`, version code 5. -/
def sampleRelease : ReleaseRow :=
  { id := 3, title := "Release 1.0.5 (5)", versionCode := 5,
    versionName := "1.0.5", releaseNote := none, environment := .production,
    applicationId := 2, createdAt := 0, updatedAt := 0, deletedAt := none }

/-- A sample database: one user (9), one project, one application, one
release. -/
def sampleDB : DB :=
  { users := [{ id := 9, deletedAt := none }], projects := [sampleProject],
    applications := [sampleApp], releases := [sampleRelease], artifacts := [],
    nextId := 10, now := 100 }

/-- A soft-deleted release row. -/
def deletedRelease : ReleaseRow :=
  { id := 4, title := "Old", versionCode := 1, versionName := "0.9",
    releaseNote := none, environment := .production, applicationId := 2,
    createdAt := 0, updatedAt := 0, deletedAt := some 50 }

/-- A soft-deleted application row. -/
def deletedApp : ApplicationRow :=
  { id := 5, title := "DeadApp", packageName := "com.dead.app",
    description := none, projectId := 1, createdAt := 0, updatedAt := 0,
    deletedAt := some 50 }

/-- A soft-deleted artifact row. -/
def deletedArtifact : ArtifactRow :=
  { id := 6, fileUrl := "u", sha256Hash := "h", fileSize := 1,
    fileType := "t", abi := none, releaseId := 3, createdAt := 0,
    updatedAt := 0, deletedAt := some 50 }

/-- A database holding both live and soft-deleted rows of every kind. -/
def sampleDBDeleted : DB :=
  { users := [{ id := 9, deletedAt := none }], projects := [sampleProject],
    applications := [sampleApp, deletedApp],
    releases := [sampleRelease, deletedRelease],
    artifacts := [deletedArtifact], nextId := 10, now := 100 }

/-- The APK data of the sample binary: matches `sampleApp` and version
code 5 of `sampleRelease`. -/
def sampleApk : ApkInfo :=
  { packageName := "com.example.app", versionCode := 5,
    versionName := "1.0.5", minSdk := 21, targetSdk := 34 }

/-- Collaborators for a fully successful ingestion of the sample binary
(the stream yields "a" then "bc"). -/
def ctxHappy : Ctx :=
  { urlParse := fun _ => some { path := "/uploads/7/app.apk" },
    storageExtractStoragePath := fun _ => ("uploads/7/app.apk", true),
    download := fun _ => .ok ([[97], [98, 99]], none),
    apkOpen := fun _ => .ok sampleApk,
    tmpCreateErr := none }

/-- Collaborators for a URL the storage subsystem does not recognize:
`net/url.Parse` fails and `ExtractStoragePath` reports "not ours". -/
def ctxBadUrl : Ctx :=
  { urlParse := fun _ => none,
    storageExtractStoragePath := fun _ => ("", false),
    download := fun _ => .error (.plainErr "unreachable"),
    apkOpen := fun _ => .error (.plainErr "unreachable"),
    tmpCreateErr := none }

/-- Collaborators for an upload that is not a valid APK archive. -/
def ctxBadApk : Ctx :=
  { urlParse := fun _ => some { path := "/uploads/7/not-an-apk.bin" },
    storageExtractStoragePath := fun _ => ("uploads/7/not-an-apk.bin", true),
    download := fun _ => .ok ([], none),
    apkOpen := fun _ => .error (.plainErr "zip: not a valid zip file"),
    tmpCreateErr := none }

/-- Collaborators for a valid APK whose package belongs to a different
application. -/
def ctxWrongPackage : Ctx :=
  { urlParse := fun _ => some { path := "/uploads/7/other.apk" },
    storageExtractStoragePath := fun _ => ("uploads/7/other.apk", true),
    download := fun _ => .ok ([[1, 2, 3]], none),
    apkOpen := fun _ => .ok { packageName := "com.other.app", versionCode := 9,
                              versionName := "2.0", minSdk := 21, targetSdk := 34 },
    tmpCreateErr := none }


/-- A create-release request colliding with `sampleRelease` on
(applicationID, versionCode, environment). -/
def dupReleaseInput : CreateReleaseInput :=
  { title := "Release 1.0.5 (5)", versionCode := 5, versionName := "1.0.5",
    releaseNote := "", environment := .production, applicationId := 2 }


/-- A statement-fault environment in which only the artifact INSERT
fails, modelling an infrastructure failure between the two writes of the
ingestion transaction. -/
def artifactFault : DbFaults :=
  { appInsertErr := none, releaseInsertErr := none,
    artifactInsertErr := some (.plainErr "connection reset") }

/-! ## Streaming lemmas: hashing chunk by chunk equals hashing the
concatenation -/

/-- Processing `a + b` leading blocks splits at a block boundary. -/
theorem processBlocksN_append (a : Nat) :
    ∀ (b : Nat) (h x y : List Nat), x.length = 64 * a →
      processBlocksN (a + b) h (x ++ y) = processBlocksN b (processBlocksN a h x) y := by
  induction a with
  | zero =>
    intro b h x y hx
    have hnil : x = [] := List.eq_nil_of_length_eq_zero (by simpa using hx)
    subst hnil
    simp [processBlocksN]
  | succ n ih =>
    intro b h x y hx
    have h64 : 64 ≤ x.length := by rw [hx]; omega
    have htake : (x ++ y).take 64 = x.take 64 := List.take_append_of_le_length h64
    have hdrop : (x ++ y).drop 64 = x.drop 64 ++ y := List.drop_append_of_le_length h64
    have hlen : (x.drop 64).length = 64 * n := by
      rw [List.length_drop, hx]; omega
    have hsucc : n + 1 + b = (n + b) + 1 := by omega
    rw [hsucc]
    simp only [processBlocksN, htake, hdrop]
    exact ih b (shaCompress h (x.take 64)) (x.drop 64) y hlen

/-- Division helper: splitting a sum at a full-blocks boundary. -/
theorem div64_add (m b : Nat) : (m + b) / 64 = m / 64 + (m % 64 + b) / 64 := by
  conv_lhs => rw [← Nat.div_add_mod m 64]
  rw [Nat.add_assoc, Nat.mul_add_div (by norm_num : 0 < 64)]

/-- Compressing all complete blocks splits across an append whose first
part is a whole number of blocks. -/
theorem processBlocks_append (h u v : List Nat) (hu : u.length % 64 = 0) :
    processBlocks h (u ++ v) = processBlocks (processBlocks h u) v := by
  unfold processBlocks
  have hq : u.length = 64 * (u.length / 64) := by
    have := Nat.div_add_mod u.length 64
    omega
  have hcount : (u ++ v).length / 64 = u.length / 64 + v.length / 64 := by
    rw [List.length_append, div64_add, hu, Nat.zero_add]
  rw [hcount]
  exact processBlocksN_append (u.length / 64) (v.length / 64) h u v hq

/-- The buffered tail of a hasher after a write is always shorter than a
block. -/
theorem shaWrite_buf_length (s : Sha256Ctx) (d : List Nat) :
    (shaWrite s d).buf.length < 64 := by
  simp only [shaWrite, List.length_drop]
  have := Nat.div_add_mod (s.buf ++ d).length 64
  have := Nat.mod_lt (s.buf ++ d).length (by norm_num : 0 < 64)
  omega

/-- Writing no bytes leaves a (reachable) hasher state unchanged. -/
theorem shaWrite_nil (s : Sha256Ctx) (hs : s.buf.length < 64) : shaWrite s [] = s := by
  have h0 : s.buf.length / 64 = 0 := Nat.div_eq_of_lt hs
  simp [shaWrite, h0, processBlocks, processBlocksN]

/-- Two consecutive writes absorb exactly the concatenation of their
inputs: the incremental hashing of the ingestion pipeline agrees with a
single one-shot write. -/
theorem shaWrite_shaWrite (s : Sha256Ctx) (a b : List Nat) :
    shaWrite (shaWrite s a) b = shaWrite s (a ++ b) := by
  have hassoc : s.buf ++ (a ++ b) = (s.buf ++ a) ++ b := by
    rw [List.append_assoc]
  simp only [shaWrite, hassoc]
  have hk1le : 64 * ((s.buf ++ a).length / 64) ≤ (s.buf ++ a).length := by
    have := Nat.div_mul_le_self (s.buf ++ a).length 64
    omega
  have hulen : ((s.buf ++ a).take (64 * ((s.buf ++ a).length / 64))).length
      = 64 * ((s.buf ++ a).length / 64) := by
    rw [List.length_take]
    omega
  have hrlen : ((s.buf ++ a).drop (64 * ((s.buf ++ a).length / 64))).length
      = (s.buf ++ a).length % 64 := by
    rw [List.length_drop]
    have := Nat.div_add_mod (s.buf ++ a).length 64
    omega
  have hcount : ((s.buf ++ a) ++ b).length / 64
      = (s.buf ++ a).length / 64
        + ((s.buf ++ a).drop (64 * ((s.buf ++ a).length / 64)) ++ b).length / 64 := by
    have h1 := List.length_append (s.buf ++ a) b
    have h2 := List.length_append ((s.buf ++ a).drop (64 * ((s.buf ++ a).length / 64))) b
    rw [h1, h2, hrlen, div64_add]
  have hsplit : (s.buf ++ a) ++ b
      = (s.buf ++ a).take (64 * ((s.buf ++ a).length / 64))
        ++ ((s.buf ++ a).drop (64 * ((s.buf ++ a).length / 64)) ++ b) := by
    rw [← List.append_assoc, List.take_append_drop]
  have hktotal : 64 * (((s.buf ++ a) ++ b).length / 64)
      = ((s.buf ++ a).take (64 * ((s.buf ++ a).length / 64))).length
        + 64 * (((s.buf ++ a).drop (64 * ((s.buf ++ a).length / 64)) ++ b).length / 64) := by
    rw [hcount, hulen]
    ring
  have htake : ((s.buf ++ a) ++ b).take (64 * (((s.buf ++ a) ++ b).length / 64))
      = (s.buf ++ a).take (64 * ((s.buf ++ a).length / 64))
        ++ ((s.buf ++ a).drop (64 * ((s.buf ++ a).length / 64)) ++ b).take
            (64 * (((s.buf ++ a).drop (64 * ((s.buf ++ a).length / 64)) ++ b).length / 64)) := by
    rw [hktotal]
    conv_lhs => rw [hsplit]
    exact List.take_append _
  have hdropk : ((s.buf ++ a) ++ b).drop (64 * (((s.buf ++ a) ++ b).length / 64))
      = ((s.buf ++ a).drop (64 * ((s.buf ++ a).length / 64)) ++ b).drop
          (64 * (((s.buf ++ a).drop (64 * ((s.buf ++ a).length / 64)) ++ b).length / 64)) := by
    rw [hktotal]
    conv_lhs => rw [hsplit]
    exact List.drop_append _
  have humod : ((s.buf ++ a).take (64 * ((s.buf ++ a).length / 64))).length % 64 = 0 := by
    rw [hulen]
    omega
  rw [Sha256Ctx.mk.injEq]
  refine ⟨?_, ?_, ?_⟩
  · rw [htake, processBlocks_append _ _ _ humod]
  · exact hdropk.symm
  · rw [List.length_append]
    omega

/-- Folding writes over a chunk list equals one write of the flattened
bytes, for any hasher state with a partial buffer. -/
theorem foldl_shaWrite (cs : List (List Nat)) :
    ∀ s : Sha256Ctx, s.buf.length < 64 → cs.foldl shaWrite s = shaWrite s cs.flatten := by
  induction cs with
  | nil =>
    intro s hs
    simp [shaWrite_nil s hs]
  | cons c cs ih =>
    intro s hs
    simp only [List.foldl_cons, List.flatten_cons]
    rw [ih (shaWrite s c) (shaWrite_buf_length s c), shaWrite_shaWrite]

/-- The single `io.Copy` pass over the stream produces the hasher state of
the flattened bytes, buffers exactly those bytes in the temp file, and
counts exactly their number. -/
theorem ioCopyMulti_spec (cs : List (List Nat)) :
    ioCopyMulti cs = (shaWrite shaNew cs.flatten, cs.flatten, cs.flatten.length) := by
  have general : ∀ (ds : List (List Nat)) (s : Sha256Ctx) (t : List Nat) (n : Nat),
      s.buf.length < 64 →
      ds.foldl (fun acc c => (shaWrite acc.1 c, acc.2.1 ++ c, acc.2.2 + c.length)) (s, t, n)
        = (shaWrite s ds.flatten, t ++ ds.flatten, n + ds.flatten.length) := by
    intro ds
    induction ds with
    | nil =>
      intro s t n hs
      simp [shaWrite_nil s hs]
    | cons c cs ih =>
      intro s t n hs
      simp only [List.foldl_cons, List.flatten_cons]
      rw [ih (shaWrite s c) (t ++ c) (n + c.length) (shaWrite_buf_length s c),
        shaWrite_shaWrite]
      simp [List.length_append]
      omega
  have h0 : shaNew.buf.length < 64 := by simp [shaNew]
  have := general cs shaNew [] 0 h0
  simpa [ioCopyMulti] using this


/-! ## Helper lemmas -/

/-- Wrapping with `%w` preserves every `errors.Is` match. -/
theorem goIs_wrapf (m : String) (e target : GoErr) (h : goIs e target = true) :
    goIs (.wrapf m e) target = true := by
  simp [goIs, h]

/-- Case analysis of `WithTxOptions`: an error result leaves the state
untouched; an ok result is the committed state and value of the unit of
work. -/
theorem withTxOptions_cases {α : Type} (txf : TxFaults) (opts : TxOptions)
    (fn : DB → DB × Except GoErr α) (db : DB) :
    (∀ e, (withTxOptions txf opts fn db).2.1 = .error e →
      (withTxOptions txf opts fn db).1 = db)
    ∧ (∀ a, (withTxOptions txf opts fn db).2.1 = .ok a →
      (withTxOptions txf opts fn db).1 = (fn db).1 ∧ (fn db).2 = .ok a) := by
  unfold withTxOptions
  rcases txf with ⟨be, ce, re⟩
  cases be with
  | some e => simp
  | none =>
    rcases hfn : fn db with ⟨db2, r⟩
    cases r with
    | ok a =>
      cases ce with
      | some c => simp [hfn]
      | none => simp [hfn]
    | error e =>
      cases re with
      | some c => simp [hfn]
      | none => simp [hfn]

/-- A successful `CreateApplicationRelease` appends exactly one live row
and touches nothing else. -/
theorem createApplicationRelease_ok (db : DB) (p : Queries.CreateApplicationReleaseParams)
    (row : ReleaseRow) (db2 : DB)
    (h : Queries.createApplicationRelease db p = .ok (row, db2)) :
    row.deletedAt = none ∧ db2.releases = db.releases ++ [row]
      ∧ db2.artifacts = db.artifacts := by
  unfold Queries.createApplicationRelease at h
  split at h
  · exact absurd h (by simp)
  · rw [Except.ok.injEq, Prod.mk.injEq] at h
    obtain ⟨hrow, hdb⟩ := h
    subst hrow
    subst hdb
    exact ⟨rfl, rfl, rfl⟩

/-- A successful `CreateArtifact` appends exactly one live row bound to
the requested release and touches nothing else. -/
theorem createArtifact_ok (db : DB) (p : Queries.CreateArtifactParams)
    (row : ArtifactRow) (db2 : DB)
    (h : Queries.createArtifact db p = .ok (row, db2)) :
    row.deletedAt = none ∧ row.releaseId = p.releaseId
      ∧ db2.artifacts = db.artifacts ++ [row] ∧ db2.releases = db.releases := by
  unfold Queries.createArtifact at h
  split at h
  · exact absurd h (by simp)
  · rw [Except.ok.injEq, Prod.mk.injEq] at h
    obtain ⟨hrow, hdb⟩ := h
    subst hrow
    subst hdb
    exact ⟨rfl, rfl, rfl, rfl⟩

/-- Membership in a sorted insertion. -/
theorem mem_sortedInsertBy {α : Type} (le : α → α → Bool) (a x : α) :
    ∀ l : List α, x ∈ sortedInsertBy le a l ↔ x = a ∨ x ∈ l := by
  intro l
  induction l with
  | nil => simp [sortedInsertBy]
  | cons b l ih =>
    unfold sortedInsertBy
    by_cases hle : le a b = true
    · rw [if_pos hle]
      simp
    · rw [if_neg hle]
      simp only [List.mem_cons, ih]
      tauto

/-- The insertion sort modelling `ORDER BY` returns exactly the rows of
its input. -/
theorem mem_sortRowsBy {α : Type} (le : α → α → Bool) (x : α) :
    ∀ l : List α, x ∈ sortRowsBy le l ↔ x ∈ l := by
  intro l
  induction l with
  | nil => simp [sortRowsBy]
  | cons b l ih =>
    simp only [sortRowsBy, mem_sortedInsertBy, ih, List.mem_cons]

/-! ## Claims -/

/-- C5. For every unit of work handed to the transaction manager, with
the transaction successfully begun: if the work returns success and the
commit goes through, the committed state and value are returned; if the
work returns an error, the state is rolled back to the pre-transaction
state and the returned error is the very same error when the rollback
succeeds — and in every case its identity survives, every `errors.Is`
match of the work's error (for example `NotProjectOwner`) still holding
of the returned error. -/
theorem withTx_commit_or_rollback_preserves_error {α : Type}
    (txf : TxFaults) (opts : TxOptions) (fn : DB → DB × Except GoErr α) (db : DB)
    (hbegin : txf.beginErr = none) :
    (∀ db2 a, fn db = (db2, .ok a) → txf.commitErr = none →
      withTxOptions txf opts fn db = (db2, .ok a, [.beginTx opts]))
    ∧ (∀ db2 e, fn db = (db2, .error e) →
      (withTxOptions txf opts fn db).1 = db
      ∧ ∃ r, (withTxOptions txf opts fn db).2.1 = .error r
        ∧ (txf.rollbackErr = none → r = e)
        ∧ ∀ target, goIs e target = true → goIs r target = true) := by
  constructor
  · intro db2 a hfn hcommit
    simp [withTxOptions, hbegin, hfn, hcommit]
  · intro db2 e hfn
    cases hrb : txf.rollbackErr with
    | none =>
      refine ⟨by simp [withTxOptions, hbegin, hfn, hrb], e,
        by simp [withTxOptions, hbegin, hfn, hrb], fun _ => rfl, fun _ h => h⟩
    | some rb =>
      refine ⟨by simp [withTxOptions, hbegin, hfn, hrb],
        .wrapf ("rollback failed: " ++ errText rb ++ " (original error") e,
        by simp [withTxOptions, hbegin, hfn, hrb], ?_, ?_⟩
      · intro hcontra
        exact absurd hcontra (by simp)
      · intro target h
        exact goIs_wrapf _ e target h

/-- Witness for C5: a unit of work failing with `ErrNotProjectOwner`
under the fault-free environment rolls back and returns that same error,
still matching `NotProjectOwner`. -/
theorem withTx_commit_or_rollback_preserves_error_witness :
    (withTxOptions noTxFaults txOptionsZero
        (fun q => (q, (Except.error ErrNotProjectOwner : Except GoErr Unit))) sampleDB).1
      = sampleDB
    ∧ ∃ r, (withTxOptions noTxFaults txOptionsZero
        (fun q => (q, (Except.error ErrNotProjectOwner : Except GoErr Unit))) sampleDB).2.1
          = .error r
      ∧ (noTxFaults.rollbackErr = none → r = ErrNotProjectOwner)
      ∧ ∀ target, goIs ErrNotProjectOwner target = true → goIs r target = true :=
  (withTx_commit_or_rollback_preserves_error noTxFaults txOptionsZero
    (fun q => (q, (Except.error ErrNotProjectOwner : Except GoErr Unit))) sampleDB rfl).2
    sampleDB ErrNotProjectOwner rfl

/-- C9, counterexample. Ownership transfer does not run under
serializable isolation: on a concrete transfer the one transaction begun
carries the zero `pgx.TxOptions` — the very default every other
transactional operation uses — although a serializable helper exists. -/
theorem transferOwnership_not_serializable_counterexample :
    (ProjectService.transferOwnership noTxFaults sampleDB 1 9 7).2.2
      = [Event.beginTx txOptionsZero]
    ∧ txOptionsZero.isoLevel ≠ IsoLevel.serializable
    ∧ txOptionsSerializable.isoLevel = IsoLevel.serializable := by
  refine ⟨rfl, by decide, rfl⟩

/-- Every transaction execution records exactly one `BeginTx` with the
options it was given. -/
theorem withTxOptions_events {α : Type} (txf : TxFaults) (opts : TxOptions)
    (fn : DB → DB × Except GoErr α) (db : DB) :
    (withTxOptions txf opts fn db).2.2 = [Event.beginTx opts] := by
  unfold withTxOptions
  rcases txf with ⟨be, ce, re⟩
  cases be with
  | some e => simp
  | none =>
    rcases hfn : fn db with ⟨db2, r⟩
    cases r with
    | ok a => cases ce <;> simp
    | error e => cases re <;> simp

/-- C9, amended. `TransferOwnership` always begins exactly one
transaction and always with the zero `pgx.TxOptions` (the per-call
default, not the serializable level): `WithSerializableTx` exists in the
transaction manager but ownership transfer does not use it. -/
theorem transferOwnership_uses_default_options (txf : TxFaults) (db : DB)
    (projectID newOwnerID requesterID : Nat) :
    (ProjectService.transferOwnership txf db projectID newOwnerID requesterID).2.2
      = [Event.beginTx txOptionsZero]
    ∧ txOptionsZero.isoLevel = IsoLevel.unspecified := by
  refine ⟨?_, rfl⟩
  unfold ProjectService.transferOwnership withTx
  exact withTxOptions_events txf txOptionsZero _ db

/-- C2 (exhibiting the defect). A second release with the same
(applicationID, versionCode, environment) — through `Create` or through
`CreateReleaseWithArtifactURL` — leaves the first release untouched, but
the surfaced error is the RAW database unique-violation fault passed
through `translateError` unchanged: it matches neither
`ErrAlreadyExists` nor `ErrReleaseExists` under `errors.Is`, and
`GetErrorCode` classifies it as `INTERNAL_ERROR`, not an
AlreadyExists-class code. -/
theorem duplicate_release_not_translated :
    ReleaseService.create sampleDB 7 dupReleaseInput
      = (sampleDB, .error (.pgUnique "unique_application_release"))
    ∧ ReleaseService.createReleaseWithArtifactURL ctxHappy noTxFaults noDbFaults
        sampleDB 7 2 "https://cdn.example.com/uploads/7/app.apk" "" .production
      = (sampleDB, .error (.pgUnique "unique_application_release"),
          [.download "uploads/7/app.apk", .beginTx txOptionsZero])
    ∧ goIs (.pgUnique "unique_application_release") ErrAlreadyExists = false
    ∧ goIs (.pgUnique "unique_application_release") ErrReleaseExists = false
    ∧ translateError (.pgUnique "unique_application_release")
        = .pgUnique "unique_application_release"
    ∧ GetErrorCode (.pgUnique "unique_application_release") = .internal := by
  refine ⟨rfl, rfl, rfl, rfl, rfl, rfl⟩

/-- C3, counterexample. When the URL is not recognized as internal, the
operation does fail with a `ValidationError` on "artifact_url", but its
message is "only internal artifacts are supported for now", not the
message "only internal artifacts are supported" stated by the claim. -/
theorem external_url_message_counterexample :
    (ReleaseService.createReleaseWithArtifactURL ctxBadUrl noTxFaults noDbFaults
        sampleDB 7 2 "http://bad url" "" .production).2.1
      = .error (.validationError "artifact_url"
          "only internal artifacts are supported for now")
    ∧ "only internal artifacts are supported for now"
        ≠ "only internal artifacts are supported" := by
  exact ⟨rfl, by decide⟩

/-- C3, amended. For every `CreateReleaseWithArtifactURL` call whose
artifactURL does not resolve to a storage path recognized as internal,
the operation fails with
`ValidationError("artifact_url", "only internal artifacts are supported
for now")`, the state is unchanged, and no download is performed (the
event trace is empty). -/
theorem external_url_rejected_before_download
    (ctx : Ctx) (txf : TxFaults) (dbf : DbFaults) (db : DB)
    (userID appID : Nat) (artifactURL releaseNote : String) (env : Environment)
    (app : Application) (project : Project) (p : String)
    (h1 : ApplicationRepository.getByID db appID = .ok app)
    (h2 : ProjectRepository.getByID db app.projectId = .ok project)
    (h3 : project.ownerId = userID)
    (h4 : ReleaseService.extractStoragePath ctx artifactURL = (p, false)) :
    ReleaseService.createReleaseWithArtifactURL ctx txf dbf db userID appID
        artifactURL releaseNote env
      = (db, .error (.validationError "artifact_url"
          "only internal artifacts are supported for now"), []) := by
  simp [ReleaseService.createReleaseWithArtifactURL, NewValidationError, h1, h2, h3, h4]

/-- Witness for C3's amended statement at a concrete rejected URL. -/
theorem external_url_rejected_before_download_witness :
    ReleaseService.extractStoragePath ctxBadUrl "http://bad url" = ("", false)
    ∧ ReleaseService.createReleaseWithArtifactURL ctxBadUrl noTxFaults noDbFaults
        sampleDB 7 2 "http://bad url" "" .production
      = (sampleDB, .error (.validationError "artifact_url"
          "only internal artifacts are supported for now"), []) :=
  ⟨rfl, external_url_rejected_before_download ctxBadUrl noTxFaults noDbFaults
    sampleDB 7 2 "http://bad url" "" .production
    (rowToApplication sampleApp) (projectToDoMain sampleProject) ""
    rfl rfl rfl rfl⟩

/-- C4. When the uploaded binary parses but its package name differs from
the target application's, `CreateReleaseWithArtifactURL` fails with
`ValidationError("artifact_url", "package name mismatch: expected X, got
Y")`, the state is unchanged — no release row and no artifact row — and
no transaction is begun (the event trace holds only the download). -/
theorem package_name_mismatch_rejected_before_tx
    (ctx : Ctx) (txf : TxFaults) (dbf : DbFaults) (db : DB)
    (userID appID : Nat) (artifactURL releaseNote : String) (env : Environment)
    (app : Application) (project : Project) (uinfo : UrlInfo)
    (chunks : List (List Nat)) (pkg : ApkInfo)
    (h1 : ApplicationRepository.getByID db appID = .ok app)
    (h2 : ProjectRepository.getByID db app.projectId = .ok project)
    (h3 : project.ownerId = userID)
    (h4 : ctx.urlParse artifactURL = some uinfo)
    (h5 : ctx.download (trimLeadingSlash uinfo.path) = .ok (chunks, none))
    (h6 : ctx.tmpCreateErr = none)
    (h7 : ctx.apkOpen (ioCopyMulti chunks).2.1 = .ok pkg)
    (h8 : app.packageName ≠ pkg.packageName) :
    ReleaseService.createReleaseWithArtifactURL ctx txf dbf db userID appID
        artifactURL releaseNote env
      = (db, .error (.validationError "artifact_url"
            ("package name mismatch: expected " ++ app.packageName ++ ", got "
              ++ pkg.packageName)),
          [.download (trimLeadingSlash uinfo.path)]) := by
  simp [ReleaseService.createReleaseWithArtifactURL, ReleaseService.extractStoragePath,
    NewValidationError, h1, h2, h3, h4, h5, h6, h7, h8]

/-- Witness for C4: uploading a "com.other.app" binary against the
"com.example.app" application is rejected with the mismatch message,
before any transaction. -/
theorem package_name_mismatch_rejected_before_tx_witness :
    (rowToApplication sampleApp).packageName ≠ "com.other.app"
    ∧ ReleaseService.createReleaseWithArtifactURL ctxWrongPackage noTxFaults noDbFaults
        sampleDB 7 2 "https://cdn.example.com/uploads/7/other.apk" "" .production
      = (sampleDB, .error (.validationError "artifact_url"
            ("package name mismatch: expected "
              ++ (rowToApplication sampleApp).packageName ++ ", got "
              ++ "com.other.app")),
          [.download "uploads/7/other.apk"]) :=
  ⟨by decide, package_name_mismatch_rejected_before_tx ctxWrongPackage noTxFaults
    noDbFaults sampleDB 7 2 "https://cdn.example.com/uploads/7/other.apk" "" .production
    (rowToApplication sampleApp) (projectToDoMain sampleProject)
    { path := "/uploads/7/other.apk" } [[1, 2, 3]]
    { packageName := "com.other.app", versionCode := 9, versionName := "2.0",
      minSdk := 21, targetSdk := 34 }
    rfl rfl rfl rfl rfl rfl rfl (by decide)⟩

/-- C8, counterexample. A file that is not a valid archive makes
`ExtractMetadataFromURL` fail with the wrapped internal-style error
"failed to open APK file: %w" — not a `ValidationError` tagged to
"artifact_url" as the claim states for both operations. -/
theorem invalid_archive_not_validation_in_metadata_counterexample :
    (APKService.extractMetadataFromURL ctxBadApk
        "https://cdn.example.com/uploads/7/not-an-apk.bin").1
      = .error (.wrapf "failed to open APK file" (.plainErr "zip: not a valid zip file"))
    ∧ isValidationErrorOnField "artifact_url"
        (.wrapf "failed to open APK file" (.plainErr "zip: not a valid zip file")) = false
    ∧ findValidationErrorCode
        (.wrapf "failed to open APK file" (.plainErr "zip: not a valid zip file")) = none := by
  exact ⟨rfl, rfl, rfl⟩

/-- C8, amended. A manifest-parsing failure is a
`ValidationError("artifact_url", "invalid APK file: ...")` in
`CreateReleaseWithArtifactURL` only; in `ExtractMetadataFromURL` the same
failure surfaces as the wrapped error "failed to open APK file: %w",
which is not a ValidationError on any field. -/
theorem invalid_archive_error_paths :
    (∀ (ctx : Ctx) (txf : TxFaults) (dbf : DbFaults) (db : DB)
        (userID appID : Nat) (artifactURL releaseNote : String) (env : Environment)
        (app : Application) (project : Project) (uinfo : UrlInfo)
        (chunks : List (List Nat)) (e : GoErr),
      ApplicationRepository.getByID db appID = .ok app →
      ProjectRepository.getByID db app.projectId = .ok project →
      project.ownerId = userID →
      ctx.urlParse artifactURL = some uinfo →
      ctx.download (trimLeadingSlash uinfo.path) = .ok (chunks, none) →
      ctx.tmpCreateErr = none →
      ctx.apkOpen (ioCopyMulti chunks).2.1 = .error e →
      ReleaseService.createReleaseWithArtifactURL ctx txf dbf db userID appID
          artifactURL releaseNote env
        = (db, .error (.validationError "artifact_url" ("invalid APK file: " ++ errText e)),
            [.download (trimLeadingSlash uinfo.path)]))
    ∧ (∀ (ctx : Ctx) (artifactURL p : String) (chunks : List (List Nat)) (e : GoErr),
      ctx.storageExtractStoragePath artifactURL = (p, true) →
      ctx.download p = .ok (chunks, none) →
      ctx.tmpCreateErr = none →
      ctx.apkOpen (ioCopyMulti chunks).2.1 = .error e →
      (APKService.extractMetadataFromURL ctx artifactURL).1
          = .error (.wrapf "failed to open APK file" e)
        ∧ isValidationErrorOnField "artifact_url"
            (.wrapf "failed to open APK file" e) = false) := by
  constructor
  · intro ctx txf dbf db userID appID artifactURL releaseNote env app project uinfo
      chunks e h1 h2 h3 h4 h5 h6 h7
    simp [ReleaseService.createReleaseWithArtifactURL, ReleaseService.extractStoragePath,
      NewValidationError, h1, h2, h3, h4, h5, h6, h7]
  · intro ctx artifactURL p chunks e h1 h2 h3 h4
    refine ⟨?_, rfl⟩
    simp [APKService.extractMetadataFromURL, h1, h2, h3, h4]

/-- Witness for C8's amended statement: the pipeline path tags the
failure to "artifact_url", the metadata path wraps it. -/
theorem invalid_archive_error_paths_witness :
    ReleaseService.createReleaseWithArtifactURL ctxBadApk noTxFaults noDbFaults
        sampleDB 7 2 "https://cdn.example.com/uploads/7/not-an-apk.bin" "" .production
      = (sampleDB, .error (.validationError "artifact_url"
            ("invalid APK file: " ++ errText (.plainErr "zip: not a valid zip file"))),
          [.download "uploads/7/not-an-apk.bin"])
    ∧ (APKService.extractMetadataFromURL ctxBadApk
          "https://cdn.example.com/uploads/7/not-an-apk.bin").1
        = .error (.wrapf "failed to open APK file" (.plainErr "zip: not a valid zip file"))
    ∧ isValidationErrorOnField "artifact_url"
        (.wrapf "failed to open APK file" (.plainErr "zip: not a valid zip file")) = false :=
  ⟨invalid_archive_error_paths.1 ctxBadApk noTxFaults noDbFaults sampleDB 7 2
      "https://cdn.example.com/uploads/7/not-an-apk.bin" "" .production
      (rowToApplication sampleApp) (projectToDoMain sampleProject)
      { path := "/uploads/7/not-an-apk.bin" } [] (.plainErr "zip: not a valid zip file")
      rfl rfl rfl rfl rfl rfl rfl,
    (invalid_archive_error_paths.2 ctxBadApk
      "https://cdn.example.com/uploads/7/not-an-apk.bin" "uploads/7/not-an-apk.bin"
      [] (.plainErr "zip: not a valid zip file") rfl rfl rfl rfl).1,
    (invalid_archive_error_paths.2 ctxBadApk
      "https://cdn.example.com/uploads/7/not-an-apk.bin" "uploads/7/not-an-apk.bin"
      [] (.plainErr "zip: not a valid zip file") rfl rfl rfl rfl).2⟩

/-- C6. For every successful ingestion run, the sha256 produced equals
the lowercase-hex SHA-256 of exactly the bytes read from the storage
path, and the reported fileSize equals the total number of bytes read —
both computed in the single `io.Copy` pass over the chunk stream
(`ioCopyMulti`), whose streamed digest provably equals the one-shot
digest of the flattened stream. For `ExtractMetadataFromURL` they are the
returned metadata fields; for `CreateReleaseWithArtifactURL` they are the
persisted artifact row's columns. -/
theorem ingestion_hash_and_size_single_pass :
    (∀ (ctx : Ctx) (artifactURL p : String) (chunks : List (List Nat)) (pkg : ApkInfo),
      ctx.storageExtractStoragePath artifactURL = (p, true) →
      ctx.download p = .ok (chunks, none) →
      ctx.tmpCreateErr = none →
      ctx.apkOpen chunks.flatten = .ok pkg →
      (APKService.extractMetadataFromURL ctx artifactURL).1
        = .ok { packageName := pkg.packageName, versionCode := pkg.versionCode,
                versionName := pkg.versionName, minSdkVersion := pkg.minSdk,
                targetSdkVersion := pkg.targetSdk, architecture := "universal",
                platform := "android",
                sha256 := hexEncodeToString (sha256Bytes chunks.flatten),
                fileSize := chunks.flatten.length })
    ∧ (∀ (ctx : Ctx) (txf : TxFaults) (dbf : DbFaults) (db : DB)
        (userID appID : Nat) (artifactURL releaseNote : String) (env : Environment)
        (app : Application) (project : Project) (uinfo : UrlInfo)
        (chunks : List (List Nat)) (pkg : ApkInfo),
      ApplicationRepository.getByID db appID = .ok app →
      ProjectRepository.getByID db app.projectId = .ok project →
      project.ownerId = userID →
      ctx.urlParse artifactURL = some uinfo →
      ctx.download (trimLeadingSlash uinfo.path) = .ok (chunks, none) →
      ctx.tmpCreateErr = none →
      ctx.apkOpen chunks.flatten = .ok pkg →
      app.packageName = pkg.packageName →
      txf.beginErr = none →
      txf.commitErr = none →
      dbf.releaseInsertErr = none →
      dbf.artifactInsertErr = none →
      db.releases.any (fun r => r.applicationId == appID
        && r.versionCode == pkg.versionCode && r.environment == env) = false →
      ∃ art : ArtifactRow,
        (ReleaseService.createReleaseWithArtifactURL ctx txf dbf db userID appID
          artifactURL releaseNote env).1.artifacts = db.artifacts ++ [art]
        ∧ art.sha256Hash = hexEncodeToString (sha256Bytes chunks.flatten)
        ∧ art.fileSize = chunks.flatten.length
        ∧ art.fileUrl = artifactURL) := by
  constructor
  · intro ctx artifactURL p chunks pkg h1 h2 h3 h4
    have hio := ioCopyMulti_spec chunks
    simp [APKService.extractMetadataFromURL, h1, h2, h3, hio, h4, sha256Bytes]
  · intro ctx txf dbf db userID appID artifactURL releaseNote env app project uinfo
      chunks pkg h1 h2 h3 h4 h5 h6 h7 h8 h9 h10 h11 h12 h13
    have hio := ioCopyMulti_spec chunks
    simp only [ReleaseService.createReleaseWithArtifactURL,
      ReleaseService.extractStoragePath, h1, h2, h3, h4, h5, h6, hio, h7, h8,
      ReleaseService.createReleaseTxBody, h11, h12, ReleaseRepository.createTx,
      ReleaseRepository.create, Queries.createApplicationRelease, h13,
      ArtifactRepository.createTx, Queries.createArtifact, withTx, withTxOptions,
      h9, h10, stringToPgtype, derefString, sha256Bytes]
    exact ⟨{ id := db.nextId + 1, fileUrl := artifactURL,
             sha256Hash := hexEncodeToString (sha256Bytes chunks.flatten),
             fileSize := chunks.flatten.length,
             fileType := "application/vnd.android.package-archive", abi := none,
             releaseId := db.nextId, createdAt := db.now, updatedAt := db.now,
             deletedAt := none }, by simp [sha256Bytes, rowToRelease], rfl, rfl, rfl⟩

/-- Witness for C6: ingesting the 3-byte stream "a" + "bc" yields the
SHA-256 of "abc" and size 3, through both operations. -/
theorem ingestion_hash_and_size_single_pass_witness :
    (APKService.extractMetadataFromURL ctxHappy
        "https://cdn.example.com/uploads/7/app.apk").1
      = .ok { packageName := sampleApk.packageName, versionCode := sampleApk.versionCode,
              versionName := sampleApk.versionName, minSdkVersion := sampleApk.minSdk,
              targetSdkVersion := sampleApk.targetSdk, architecture := "universal",
              platform := "android",
              sha256 := hexEncodeToString
                (sha256Bytes ([[97], [98, 99]] : List (List Nat)).flatten),
              fileSize := ([[97], [98, 99]] : List (List Nat)).flatten.length }
    ∧ ∃ art : ArtifactRow,
        (ReleaseService.createReleaseWithArtifactURL ctxHappy noTxFaults noDbFaults
          sampleDB 7 2 "https://cdn.example.com/uploads/7/app.apk" ""
          .development).1.artifacts
          = sampleDB.artifacts ++ [art]
        ∧ art.sha256Hash = hexEncodeToString
            (sha256Bytes ([[97], [98, 99]] : List (List Nat)).flatten)
        ∧ art.fileSize = ([[97], [98, 99]] : List (List Nat)).flatten.length
        ∧ art.fileUrl = "https://cdn.example.com/uploads/7/app.apk" :=
  ⟨ingestion_hash_and_size_single_pass.1 ctxHappy
      "https://cdn.example.com/uploads/7/app.apk" "uploads/7/app.apk"
      [[97], [98, 99]] sampleApk rfl rfl rfl rfl,
    ingestion_hash_and_size_single_pass.2 ctxHappy noTxFaults noDbFaults sampleDB 7 2
      "https://cdn.example.com/uploads/7/app.apk" "" .development
      (rowToApplication sampleApp) (projectToDoMain sampleProject)
      { path := "/uploads/7/app.apk" } [[97], [98, 99]] sampleApk
      rfl rfl rfl rfl rfl rfl rfl rfl rfl rfl rfl rfl (by decide)⟩

/-- C7. With the target entity present and its ownership chain resolving
— release, application and project all found — a caller who is not the
owning project's owner receives `NotProjectOwner` (never `NotFound`) from
every mutating pipeline operation, and no state is modified: Create,
Update, Promote, Delete, CreateReleaseWithArtifactURL (which also
performs no download and opens no transaction) and CreateFromArtifact. -/
theorem non_owner_gets_not_project_owner
    (db : DB) (uid rid : Nat) (rel : ApplicationRelease) (app : Application)
    (project : Project)
    (hrel : ReleaseRepository.getByID db rid = .ok rel)
    (happ : ApplicationRepository.getByID db rel.applicationId = .ok app)
    (hproj : ProjectRepository.getByID db app.projectId = .ok project)
    (hown : project.ownerId ≠ uid) :
    (∀ input : CreateReleaseInput, input.applicationId = rel.applicationId →
      ReleaseService.create db uid input = (db, .error ErrNotProjectOwner))
    ∧ (∀ title note, ReleaseService.update db uid rid title note
        = (db, .error ErrNotProjectOwner))
    ∧ (∀ env, ReleaseService.promote db uid rid env = (db, .error ErrNotProjectOwner))
    ∧ ReleaseService.delete db uid rid = (db, .error ErrNotProjectOwner)
    ∧ (∀ (ctx : Ctx) (txf : TxFaults) (dbf : DbFaults) (url note : String)
        (env : Environment),
      ∃ e, ReleaseService.createReleaseWithArtifactURL ctx txf dbf db uid
          rel.applicationId url note env = (db, .error e, [])
        ∧ goIs e ErrNotProjectOwner = true ∧ goIs e ErrNotFound = false)
    ∧ (∀ (ctx : Ctx) (txf : TxFaults) (dbf : DbFaults)
        (input : CreateApplicationFromArtifactInput), input.projectId = app.projectId →
      ApplicationService.createFromArtifact ctx txf dbf db uid input
        = (db, .error ErrNotProjectOwner, []))
    ∧ goIs ErrNotProjectOwner ErrNotFound = false := by
  refine ⟨?_, ?_, ?_, ?_, ?_, ?_, rfl⟩
  · intro input hin
    simp [ReleaseService.create, hin, happ, hproj, hown]
  · intro title note
    simp [ReleaseService.update, hrel, happ, hproj, hown]
  · intro env
    simp [ReleaseService.promote, hrel, happ, hproj, hown]
  · simp [ReleaseService.delete, hrel, happ, hproj, hown]
  · intro ctx txf dbf url note env
    refine ⟨WrapError .notProjectOwner
      ("access denied: user " ++ toString uid ++ " is not the owner of project "
        ++ toString project.id) ErrNotProjectOwner, ?_, ?_, ?_⟩
    · simp [ReleaseService.createReleaseWithArtifactURL, happ, hproj, hown]
    · simp [goIs, goIsTop, appCode?, WrapError, ErrNotProjectOwner]
    · simp [goIs, goIsTop, appCode?, WrapError, ErrNotProjectOwner, ErrNotFound]
  · intro ctx txf dbf input hin
    simp [ApplicationService.createFromArtifact, hin, hproj, hown]

/-- Witness for C7: user 8 (not owner 7 of the sample project) is turned
away from each operation with `NotProjectOwner` and the database is left
as it was. -/
theorem non_owner_gets_not_project_owner_witness :
    (projectToDoMain sampleProject).ownerId ≠ 8
    ∧ ReleaseService.delete sampleDB 8 3 = (sampleDB, .error ErrNotProjectOwner)
    ∧ (∀ env, ReleaseService.promote sampleDB 8 3 env
        = (sampleDB, .error ErrNotProjectOwner))
    ∧ ∃ e, ReleaseService.createReleaseWithArtifactURL ctxHappy noTxFaults noDbFaults
        sampleDB 8 2 "https://cdn.example.com/uploads/7/app.apk" "" .production
        = (sampleDB, .error e, [])
      ∧ goIs e ErrNotProjectOwner = true ∧ goIs e ErrNotFound = false := by
  have H := non_owner_gets_not_project_owner sampleDB 8 3 (rowToRelease sampleRelease)
    (rowToApplication sampleApp) (projectToDoMain sampleProject) rfl rfl rfl (by decide)
  exact ⟨by decide, H.2.2.2.1, H.2.2.1, H.2.2.2.2.1 ctxHappy noTxFaults noDbFaults
    "https://cdn.example.com/uploads/7/app.apk" "" .production⟩

/-- C10. Soft-deleted rows are invisible to every modelled read of the
release, application and artifact repositories: with primary-key and
package-name uniqueness (the table constraints), a lookup of a deleted
row by ID — or of a deleted application by package name — yields
`ErrNotFound`, a deleted row is absent from every list result, and the
latest-by-environment lookup only ever returns a live row. -/
theorem soft_deleted_rows_invisible (db : DB) :
    (∀ r ∈ db.releases, r.deletedAt ≠ none →
      ((db.releases.map ReleaseRow.id).Nodup →
        ReleaseRepository.getByID db r.id = .error ErrNotFound)
      ∧ (∀ appId, r ∉ Queries.listReleasesByApplication db appId)
      ∧ (∀ appId env, r ∉ Queries.listReleasesByEnvironment db appId env))
    ∧ (∀ appId env r2, Queries.getLatestReleaseByEnvironment db appId env = .ok r2 →
        r2.deletedAt = none)
    ∧ (∀ a ∈ db.applications, a.deletedAt ≠ none →
      ((db.applications.map ApplicationRow.id).Nodup →
        ApplicationRepository.getByID db a.id = .error ErrNotFound)
      ∧ ((db.applications.map ApplicationRow.packageName).Nodup →
        ApplicationRepository.getByPackageName db a.packageName = .error ErrNotFound)
      ∧ (∀ pid, a ∉ Queries.listApplicationsByProject db pid))
    ∧ (∀ art ∈ db.artifacts, art.deletedAt ≠ none →
      ((db.artifacts.map ArtifactRow.id).Nodup →
        ArtifactRepository.getByID db art.id = .error ErrNotFound)
      ∧ (∀ relId, art ∉ Queries.listArtifactsByRelease db relId)) := by
  refine ⟨?_, ?_, ?_, ?_⟩
  · intro r hr hdel
    refine ⟨?_, ?_, ?_⟩
    · intro hnodup
      have hnone : db.releases.find? (fun x => x.id == r.id && x.deletedAt == none)
          = none := by
        rw [List.find?_eq_none]
        intro x hx
        by_cases hid : x.id = r.id
        · have hxr : x = r := List.inj_on_of_nodup_map hnodup hx hr hid
          subst hxr
          rcases hopt : x.deletedAt with _ | t
          · exact absurd hopt hdel
          · simp [hid, hopt]
        · simp [hid]
      simp [ReleaseRepository.getByID, Queries.getApplicationReleaseByID, hnone,
        translateError, goIs, goIsTop, appCode?]
    · intro appId hmem
      have hf := (List.mem_filter.mp ((mem_sortRowsBy _ r _).mp hmem)).2
      rcases hopt : r.deletedAt with _ | t
      · exact absurd hopt hdel
      · simp [hopt] at hf
    · intro appId env hmem
      have hf := (List.mem_filter.mp ((mem_sortRowsBy _ r _).mp hmem)).2
      rcases hopt : r.deletedAt with _ | t
      · exact absurd hopt hdel
      · simp [hopt] at hf
  · intro appId env r2 h
    unfold Queries.getLatestReleaseByEnvironment at h
    rcases hh : (Queries.listReleasesByEnvironment db appId env).head? with _ | r3
    · rw [hh] at h
      exact absurd h (by simp)
    · rw [hh, Except.ok.injEq] at h
      have hmem : r3 ∈ Queries.listReleasesByEnvironment db appId env :=
        List.mem_of_mem_head? (by simp [hh])
      have hf := (List.mem_filter.mp ((mem_sortRowsBy _ r3 _).mp hmem)).2
      rw [← h]
      rcases hopt : r3.deletedAt with _ | t
      · rfl
      · simp [hopt] at hf
  · intro a ha hdel
    refine ⟨?_, ?_, ?_⟩
    · intro hnodup
      have hnone : db.applications.find? (fun x => x.id == a.id && x.deletedAt == none)
          = none := by
        rw [List.find?_eq_none]
        intro x hx
        by_cases hid : x.id = a.id
        · have hxa : x = a := List.inj_on_of_nodup_map hnodup hx ha hid
          subst hxa
          rcases hopt : x.deletedAt with _ | t
          · exact absurd hopt hdel
          · simp [hid, hopt]
        · simp [hid]
      simp [ApplicationRepository.getByID, Queries.getApplicationByID, hnone,
        translateError, goIs, goIsTop, appCode?]
    · intro hnodup
      have hnone : db.applications.find?
          (fun x => x.packageName == a.packageName && x.deletedAt == none) = none := by
        rw [List.find?_eq_none]
        intro x hx
        by_cases hpn : x.packageName = a.packageName
        · have hxa : x = a := List.inj_on_of_nodup_map hnodup hx ha hpn
          subst hxa
          rcases hopt : x.deletedAt with _ | t
          · exact absurd hopt hdel
          · simp [hpn, hopt]
        · simp [hpn]
      simp [ApplicationRepository.getByPackageName, Queries.getApplicationByPackageName,
        hnone, translateError, goIs, goIsTop, appCode?]
    · intro pid hmem
      have hf := (List.mem_filter.mp ((mem_sortRowsBy _ a _).mp hmem)).2
      rcases hopt : a.deletedAt with _ | t
      · exact absurd hopt hdel
      · simp [hopt] at hf
  · intro art hart hdel
    refine ⟨?_, ?_⟩
    · intro hnodup
      have hnone : db.artifacts.find? (fun x => x.id == art.id && x.deletedAt == none)
          = none := by
        rw [List.find?_eq_none]
        intro x hx
        by_cases hid : x.id = art.id
        · have hxa : x = art := List.inj_on_of_nodup_map hnodup hx hart hid
          subst hxa
          rcases hopt : x.deletedAt with _ | t
          · exact absurd hopt hdel
          · simp [hid, hopt]
        · simp [hid]
      simp [ArtifactRepository.getByID, Queries.getArtifactByID, hnone,
        translateError, goIs, goIsTop, appCode?]
    · intro relId hmem
      have hf := (List.mem_filter.mp hmem).2
      rcases hopt : art.deletedAt with _ | t
      · exact absurd hopt hdel
      · simp [hopt] at hf

/-- Witness for C10 on a concrete database holding a soft-deleted
release, application and artifact alongside live rows. -/
theorem soft_deleted_rows_invisible_witness :
    ReleaseRepository.getByID sampleDBDeleted 4 = .error ErrNotFound
    ∧ deletedRelease ∉ Queries.listReleasesByApplication sampleDBDeleted 2
    ∧ ApplicationRepository.getByID sampleDBDeleted 5 = .error ErrNotFound
    ∧ ApplicationRepository.getByPackageName sampleDBDeleted "com.dead.app"
        = .error ErrNotFound
    ∧ ArtifactRepository.getByID sampleDBDeleted 6 = .error ErrNotFound
    ∧ deletedArtifact ∉ Queries.listArtifactsByRelease sampleDBDeleted 3 := by
  have H := soft_deleted_rows_invisible sampleDBDeleted
  have hr := H.1 deletedRelease (by decide) (by decide)
  have ha := H.2.2.1 deletedApp (by decide) (by decide)
  have hart := H.2.2.2 deletedArtifact (by decide) (by decide)
  exact ⟨hr.1 (by decide), hr.2.1 2, ha.1 (by decide), ha.2.1 (by decide),
    hart.1 (by decide), hart.2 3⟩

/-- A successful run of the create-release transaction body leaves both a
live release row and a live artifact row bound to it in the resulting
state. -/
theorem createReleaseTxBody_ok (dbf : DbFaults) (appID : Nat)
    (artifactURL sha256Hex : String) (fileSize : Nat) (versionCode : Int)
    (versionName releaseNote : String) (env : Environment) (q db2 : DB)
    (rel : ApplicationRelease)
    (h : ReleaseService.createReleaseTxBody dbf appID artifactURL sha256Hex fileSize
      versionCode versionName releaseNote env q = (db2, .ok rel)) :
    ∃ row ∈ db2.releases, row.deletedAt = none ∧ row.id = rel.id
      ∧ ∃ artRow ∈ db2.artifacts, artRow.deletedAt = none
        ∧ artRow.releaseId = rel.id := by
  unfold ReleaseService.createReleaseTxBody at h
  split at h
  · simp at h
  · split at h
    · simp at h
    · rename_i release q1 hcr
      split at h
      · simp at h
      · split at h
        · simp at h
        · rename_i art q2 hca
          rw [Prod.mk.injEq, Except.ok.injEq] at h
          obtain ⟨hq2, hrel⟩ := h
          subst hq2
          subst hrel
          unfold ReleaseRepository.createTx ReleaseRepository.create at hcr
          split at hcr
          · simp at hcr
          · rename_i row q1x hq
            rw [Except.ok.injEq, Prod.mk.injEq] at hcr
            obtain ⟨hrel2, hq1⟩ := hcr
            subst hq1
            obtain ⟨hlive, hrels, harts⟩ :=
              createApplicationRelease_ok q _ row q1x hq
            unfold ArtifactRepository.createTx at hca
            split at hca
            · simp at hca
            · rename_i arow q2x hqa
              rw [Except.ok.injEq, Prod.mk.injEq] at hca
              obtain ⟨hart2, hq2x⟩ := hca
              subst hq2x
              obtain ⟨halive, harel, harts2, hrels2⟩ :=
                createArtifact_ok q1x _ arow q2x hqa
              refine ⟨row, ?_, hlive, ?_, arow, ?_, halive, ?_⟩
              · rw [hrels2, hrels]
                simp
              · rw [← hrel2, rowToRelease]
              · rw [harts2]
                simp
              · rw [harel, ← hrel2, rowToRelease]

/-- An ok result of a default-options transaction comes from the unit of
work succeeding on the pre-state, its state being the committed one. -/
theorem withTx_ok_body {α : Type} (txf : TxFaults) (fn : DB → DB × Except GoErr α)
    (db : DB) (a : α) (h : (withTxOptions txf txOptionsZero fn db).2.1 = .ok a) :
    fn db = ((withTxOptions txf txOptionsZero fn db).1, .ok a) := by
  obtain ⟨h1, h2⟩ := (withTxOptions_cases txf txOptionsZero fn db).2 a h
  rw [h1, ← h2]

/-- C1. The release row and the artifact row of
`CreateReleaseWithArtifactURL` are atomic. For every execution: a
successful result means both a live release row and a live artifact row
bound to it are persisted; an error result means the database is exactly
the pre-call state, so neither row is visible. And when artifact creation
fails after release creation inside the transaction, the call returns
precisely that failing step's (translated) error, with the state rolled
back. -/
theorem createReleaseWithArtifactURL_atomic
    (ctx : Ctx) (txf : TxFaults) (dbf : DbFaults) (db : DB) (userID appID : Nat)
    (artifactURL releaseNote : String) (env : Environment) :
    (∀ rel, (ReleaseService.createReleaseWithArtifactURL ctx txf dbf db userID appID
        artifactURL releaseNote env).2.1 = .ok rel →
      ∃ row ∈ (ReleaseService.createReleaseWithArtifactURL ctx txf dbf db userID appID
          artifactURL releaseNote env).1.releases,
        row.deletedAt = none ∧ row.id = rel.id
        ∧ ∃ artRow ∈ (ReleaseService.createReleaseWithArtifactURL ctx txf dbf db userID
            appID artifactURL releaseNote env).1.artifacts,
          artRow.deletedAt = none ∧ artRow.releaseId = rel.id)
    ∧ (∀ e, (ReleaseService.createReleaseWithArtifactURL ctx txf dbf db userID appID
        artifactURL releaseNote env).2.1 = .error e →
      (ReleaseService.createReleaseWithArtifactURL ctx txf dbf db userID appID
        artifactURL releaseNote env).1 = db)
    ∧ (∀ (app : Application) (project : Project) (uinfo : UrlInfo)
        (chunks : List (List Nat)) (pkg : ApkInfo) (e : GoErr),
      ApplicationRepository.getByID db appID = .ok app →
      ProjectRepository.getByID db app.projectId = .ok project →
      project.ownerId = userID →
      ctx.urlParse artifactURL = some uinfo →
      ctx.download (trimLeadingSlash uinfo.path) = .ok (chunks, none) →
      ctx.tmpCreateErr = none →
      ctx.apkOpen (ioCopyMulti chunks).2.1 = .ok pkg →
      app.packageName = pkg.packageName →
      txf.beginErr = none →
      txf.rollbackErr = none →
      dbf.releaseInsertErr = none →
      db.releases.any (fun r => r.applicationId == appID
        && r.versionCode == pkg.versionCode && r.environment == env) = false →
      dbf.artifactInsertErr = some e →
      ReleaseService.createReleaseWithArtifactURL ctx txf dbf db userID appID
          artifactURL releaseNote env
        = (db, .error (translateError e),
            [.download (trimLeadingSlash uinfo.path), .beginTx txOptionsZero])) := by
  refine ⟨?_, ?_, ?_⟩
  · intro rel
    unfold ReleaseService.createReleaseWithArtifactURL
    dsimp only
    split
    · intro h; exact absurd h (by simp)
    · split
      · intro h; exact absurd h (by simp)
      · split
        · intro h; exact absurd h (by simp)
        · split
          · intro h; exact absurd h (by simp)
          · split
            · intro h; exact absurd h (by simp)
            · split
              · intro h; exact absurd h (by simp)
              · split
                · intro h; exact absurd h (by simp)
                · split
                  · intro h; exact absurd h (by simp)
                  · split
                    · intro h; exact absurd h (by simp)
                    · intro h
                      simp only at h ⊢
                      unfold withTx at h ⊢
                      exact createReleaseTxBody_ok _ _ _ _ _ _ _ _ _ _ _ _
                        (withTx_ok_body txf _ db rel h)
  · intro e
    unfold ReleaseService.createReleaseWithArtifactURL
    dsimp only
    split
    · intro _; rfl
    · split
      · intro _; rfl
      · split
        · intro _; rfl
        · split
          · intro _; rfl
          · split
            · intro _; rfl
            · split
              · intro _; rfl
              · split
                · intro _; rfl
                · split
                  · intro _; rfl
                  · split
                    · intro _; rfl
                    · intro h
                      simp only at h ⊢
                      unfold withTx at h ⊢
                      exact (withTxOptions_cases txf txOptionsZero _ db).1 e h
  · intro app project uinfo chunks pkg e h1 h2 h3 h4 h5 h6 h7 h8 hb hrb hri hconf hai
    simp only [ReleaseService.createReleaseWithArtifactURL,
      ReleaseService.extractStoragePath, h1, h2, h3, h4, h5, h6, h7, h8,
      ReleaseService.createReleaseTxBody, hri, hai, ReleaseRepository.createTx,
      ReleaseRepository.create, Queries.createApplicationRelease, hconf,
      withTx, withTxOptions, hb, hrb]
    simp

/-- Witness for C1: with an injected artifact-INSERT failure after the
release INSERT, the call returns the failing step's error and the
database is exactly the pre-call state — the release is not visible. -/
theorem createReleaseWithArtifactURL_atomic_witness :
    ReleaseService.createReleaseWithArtifactURL ctxHappy noTxFaults artifactFault
        sampleDB 7 2 "https://cdn.example.com/uploads/7/app.apk" "" .development
      = (sampleDB, .error (translateError (.plainErr "connection reset")),
          [.download "uploads/7/app.apk", .beginTx txOptionsZero]) :=
  (createReleaseWithArtifactURL_atomic ctxHappy noTxFaults artifactFault sampleDB 7 2
    "https://cdn.example.com/uploads/7/app.apk" "" .development).2.2
    (rowToApplication sampleApp) (projectToDoMain sampleProject)
    { path := "/uploads/7/app.apk" } [[97], [98, 99]] sampleApk
    (.plainErr "connection reset")
    rfl rfl rfl rfl rfl rfl rfl rfl rfl rfl rfl (by decide) rfl

end AppShare
